import Mathlib

/-!
# jpy: the native side of `org.jpy.PyLib`

A shallow embedding of `src/main/c/jni/org_jpy_PyLib.c`.  The file is JNI glue between a
Java host and an embedded CPython guest, so almost every statement of it is a call into
the CPython C API, the JNI or the other jpy translation units.  Those calls are taken as
oracles (the fields of `World`); the control flow, the reference counting and the error
handling written in `org_jpy_PyLib.c` itself are transcribed function by function over an
explicit `State`.

Conventions of the embedding
* a `PyObject*` / `jobject` that may be `NULL` is an `Option`; `none` is `NULL`;
* a guest API that fails returns `NULL` (or `-1`) with the guest error indicator set, as the
  CPython C API documents; an oracle therefore answers `Except.error e` with the error `e`
  that becomes pending;
* the indicator owns one reference to each of its components, and an API returning a
  "new reference" increments the count of the object it returns; what guest code run inside
  an oracle (an invoked callable, a `__getattr__`, a `__str__`) does to other counts is not
  modelled, and the argument tuple is a local value whose only reference is the dispatcher's;
* `ob_refcnt` is a `Py_ssize_t`; counts are mathematical integers here (overflowing a
  `Py_ssize_t` needs 2^63 increments and is undefined behaviour in C);
* `Py_DECREF` frees the object when its count reaches zero; `freed` records that, and what
  the deallocator of the object's type does to other objects is not modelled;
* `JPy_DIAG_PRINT` only writes to the console and is not part of the state; the flag word
  `JPy_DiagFlags` is, because `startPython` branches on it;
* `trace` records the guest and host operations a run performs, in order.
-/

set_option linter.unusedVariables false

namespace PyLib

/-- Address of a guest object, a non-NULL `PyObject*`. -/
abbrev PyObject := Nat

/-- A non-null JNI reference. -/
abbrev JRef := Nat

/-- A JNI `jobject`; `none` is the Java `null`. -/
abbrev jobject := Option JRef

/-- A JNI `jclass`; `none` is `NULL`. -/
abbrev jclass := Option JRef

/-- A non-NULL `JPy_JType*`. -/
abbrev JType := Nat

/-- A `jdouble`, given by its IEEE-754 bit pattern. -/
abbrev jdouble := Nat

/-- The bit pattern of the double `-1.0`, the error value of `PyFloat_AsDouble`. -/
def minusOneDouble : jdouble := 0xBFF0000000000000

/-- The guest error triple as `PyErr_Fetch` followed by `PyErr_NormalizeException` yields it. -/
structure PyErrState where
  ptype : Option PyObject
  pvalue : Option PyObject
  ptraceback : Option PyObject
deriving DecidableEq, Repr

/-- A pending Java exception: its class and the message handed to `ThrowNew`. -/
structure JThrowable where
  cls : String
  message : Option String
deriving DecidableEq, Repr

/-- Name of the class behind `JPy_RuntimeException_JClass`. -/
def JPy_RuntimeException_JClass : String := "java/lang/RuntimeException"

/-- Operations on the guest interpreter and on the host that a run performs. -/
inductive Event where
  | Py_Initialize
  | Py_Finalize
  | RedirectStdOut
  | ImportModule (name : String)
  | PyErr_Print
  | GetAttrString (o : PyObject) (name : String)
  | GetType (index : Nat) (cls : JRef)
  | FromJObject (index : Nat) (jArg : jobject) (ty : Option JType)
  | CallObject (callable : PyObject) (args : List PyObject)
  | SequenceGetItem (o : PyObject) (index : Nat)
  | AsJObject (o : PyObject) (cls : jclass)
  | ThrowNew (cls : String) (message : Option String)
deriving DecidableEq, Repr

/-- The process-wide state the file reads and writes. -/
structure State where
  /-- What `Py_IsInitialized()` reports. -/
  pyInitialized : Bool
  /-- The global `JPy_Module`, set by `PyInit_jpy` when the module `jpy` is imported. -/
  JPy_Module : Option PyObject
  /-- The global diagnostics bit mask. -/
  JPy_DiagFlags : Int
  /-- The file-static `JPy_InitThreads`. -/
  JPy_InitThreads : Bool
  /-- Whether `sys.stdout` and `sys.stderr` are bound to the `jpy_stdout` sink. -/
  stdoutSink : Bool
  /-- The field `ob_refcnt` of every guest object. -/
  ob_refcnt : PyObject → Int
  /-- The guest error indicator; `none` when `PyErr_Occurred()` is `NULL`. -/
  pyErr : Option PyErrState
  /-- The exception pending in the `JNIEnv`, if any. -/
  jException : Option JThrowable
  /-- Guest and host operations performed so far. -/
  trace : List Event
  /-- The objects `_Py_Dealloc` has been called on: their memory is freed. -/
  freed : PyObject → Bool

/-- The CPython C API, the JNI and the jpy conversion layer, as far as this file calls them. -/
structure World where
  /-- `PyImport_ImportModule("jpy")`: the module, or the error it raises. -/
  importJpy : Except PyErrState PyObject
  /-- `PyObject_Str`. -/
  str : PyObject → Except PyErrState PyObject
  /-- `PyUnicode_AsEncodedString(_, "utf-8", "replace")`. -/
  encodeUtf8 : PyObject → Except PyErrState PyObject
  /-- `PyBytes_AsString`. -/
  bytesAsString : PyObject → Except PyErrState String
  /-- Whether `PyMem_New(char, n)` finds memory. -/
  memNew : Nat → Bool
  /-- `PyObject_GetAttrString`. -/
  getAttr : PyObject → String → Except PyErrState PyObject
  /-- `PyCallable_Check`; it never fails and never sets an error. -/
  isCallable : PyObject → Bool
  /-- `JType_GetType(jenv, cls, JNI_FALSE)`. -/
  getType : JRef → Except PyErrState JType
  /-- `JPy_FromJObject` (no type) and `JPy_FromJObjectWithType`. -/
  fromJObject : jobject → Option JType → Except PyErrState PyObject
  /-- `PyObject_CallObject`. -/
  call : PyObject → List PyObject → Except PyErrState PyObject
  /-- The error `PyTuple_New` sets for a negative size (`PyErr_BadInternalCall`). -/
  badInternalCall : PyErrState
  /-- `PyLong_AsLong`. -/
  asLong : PyObject → Except PyErrState Int
  /-- `PyFloat_AsDouble`. -/
  asDouble : PyObject → Except PyErrState jdouble
  /-- `JPy_AsJObject`. -/
  asJObject : PyObject → Except PyErrState jobject
  /-- `JPy_AsJObjectWithClass`. -/
  asJObjectWithClass : PyObject → jclass → Except PyErrState jobject
  /-- The singleton `Py_None`. -/
  Py_None : PyObject
  /-- `JObj_Check` together with the field `objectRef` of a `JPy_JObj`. -/
  jobjRef : PyObject → Option jobject
  /-- `PySequence_Check`. -/
  isSequence : PyObject → Bool
  /-- `PySequence_Length`. -/
  seqLength : PyObject → Except PyErrState Int
  /-- `PySequence_GetItem`. -/
  getItem : PyObject → Nat → Except PyErrState PyObject
  /-- Whether `SetObjectArrayElement` accepts the element for an array of the class. -/
  arrayStoreOk : jclass → jobject → Bool

/-! ## Reference counts and the guest error indicator -/

/-- The macro `Py_INCREF`. -/
def Py_INCREF (s : State) (o : PyObject) : State :=
  { s with ob_refcnt := fun x => if x = o then s.ob_refcnt x + 1 else s.ob_refcnt x }

/-- The macro `Py_DECREF`: the count goes down by one, and when it reaches zero
`_Py_Dealloc` frees the object. -/
def Py_DECREF (s : State) (o : PyObject) : State :=
  { s with
    ob_refcnt := fun x => if x = o then s.ob_refcnt x - 1 else s.ob_refcnt x
    freed := fun x => if x = o ∧ s.ob_refcnt o - 1 = 0 then true else s.freed x }

/-- The macro `Py_XDECREF`. -/
def Py_XDECREF (s : State) (o : Option PyObject) : State :=
  match o with
  | none => s
  | some p => Py_DECREF s p

/-- The macro `Py_XINCREF`. -/
def Py_XINCREF (s : State) (o : Option PyObject) : State :=
  match o with
  | none => s
  | some p => Py_INCREF s p

/-- `PyErr_Clear`: the indicator drops the references it holds. -/
def PyErr_Clear (s : State) : State :=
  match s.pyErr with
  | none => s
  | some e =>
    Py_XDECREF (Py_XDECREF (Py_XDECREF { s with pyErr := none } e.ptype) e.pvalue) e.ptraceback

/-- A failing guest API sets the indicator: the old error is dropped, the new one is owned. -/
def PyErr_Set (s : State) (e : PyErrState) : State :=
  let s1 := PyErr_Clear s
  let s2 := Py_XINCREF (Py_XINCREF (Py_XINCREF s1 e.ptype) e.pvalue) e.ptraceback
  { s2 with pyErr := some e }

/-- Append an event to the trace. -/
def emit (s : State) (ev : Event) : State :=
  { s with trace := s.trace ++ [ev] }

/-- JNI `ThrowNew`. -/
def ThrowNew (s : State) (cls : String) (message : Option String) : State :=
  { emit s (Event.ThrowNew cls message) with jException := some ⟨cls, message⟩ }

/-- The macro `JPy_BEGIN_GIL_STATE`, as far as the static flag goes. -/
def JPy_BEGIN_GIL_STATE (s : State) : State :=
  if !s.JPy_InitThreads then { s with JPy_InitThreads := true } else s

/-! ## Exception translation -/

/-- `PyObject_Str`: a new reference to the text, or `NULL` with an error set. -/
def PyObject_Str (w : World) (o : PyObject) (s : State) : Option PyObject × State :=
  match w.str o with
  | .ok r => (some r, Py_INCREF s r)
  | .error e => (none, PyErr_Set s e)

/-- `PyUnicode_AsEncodedString(o, "utf-8", "replace")`: a new reference, or `NULL`. -/
def PyUnicode_AsEncodedString (w : World) (o : PyObject) (s : State) : Option PyObject × State :=
  match w.encodeUtf8 o with
  | .ok r => (some r, Py_INCREF s r)
  | .error e => (none, PyErr_Set s e)

/-- `PyBytes_AsString`: the bytes of the object, or `NULL` with an error set. -/
def PyBytes_AsString (w : World) (o : PyObject) (s : State) : Option String × State :=
  match w.bytesAsString o with
  | .ok r => (some r, s)
  | .error e => (none, PyErr_Set s e)

/-- The C expression `x != NULL ? f(x) : NULL`. -/
def ifNonNull {α β : Type} (x : Option α) (f : α → State → Option β × State) (s : State) :
    Option β × State :=
  match x with
  | none => (none, s)
  | some a => f a s

/-- The C function `strlen`, in bytes. -/
def strlen (t : String) : Nat := t.utf8ByteSize

/-- What `%s` prints for a `char*`; glibc prints `(null)` for `NULL`. -/
def fmtS : Option String → String
  | some t => t
  | none => "(null)"

/-- The size passed to `PyMem_New` for the message buffer. -/
def javaMessageSize (typeChars valueChars tracebackChars : Option String) : Nat :=
  (match typeChars with | some t => strlen t | none => 8)
    + (match valueChars with | some t => strlen t | none => 8)
    + (match tracebackChars with | some t => strlen t | none => 8) + 80

/-- The text the two `sprintf` calls produce. -/
def javaMessage (typeChars valueChars tracebackChars : Option String) : String :=
  match tracebackChars with
  | some _ =>
    "Python error: " ++ fmtS typeChars ++ ": " ++ fmtS valueChars
      ++ "\nTraceback: " ++ fmtS tracebackChars
  | none => "Python error: " ++ fmtS typeChars ++ ": " ++ fmtS valueChars

/-- The function `PyLib_HandlePythonException`. -/
def PyLib_HandlePythonException (w : World) (s : State) : State :=
  match s.pyErr with
  | none => s
  | some e =>
    -- PyErr_Fetch, PyErr_NormalizeException: the triple now belongs to the locals
    let s0 := { s with pyErr := none }
    let pyType := e.ptype
    let pyValue := e.pvalue
    let pyTraceback := e.ptraceback
    let r1 := ifNonNull pyType (PyObject_Str w) s0
    let pyTypeStr := r1.1
    let r2 := ifNonNull pyValue (PyObject_Str w) r1.2
    let pyValueStr := r2.1
    let r3 := ifNonNull pyTraceback (PyObject_Str w) r2.2
    let pyTracebackStr := r3.1
    let r4 := ifNonNull pyTypeStr (PyUnicode_AsEncodedString w) r3.2
    let pyTypeUtf8 := r4.1
    let r5 := ifNonNull pyValueStr (PyUnicode_AsEncodedString w) r4.2
    let pyValueUtf8 := r5.1
    let r6 := ifNonNull pyTracebackStr (PyUnicode_AsEncodedString w) r5.2
    let pyTracebackUtf8 := r6.1
    let r7 := ifNonNull pyTypeUtf8 (PyBytes_AsString w) r6.2
    let typeChars := r7.1
    let r8 := ifNonNull pyValueUtf8 (PyBytes_AsString w) r7.2
    let valueChars := r8.1
    let r9 := ifNonNull pyTracebackUtf8 (PyBytes_AsString w) r8.2
    let tracebackChars := r9.1
    let s9 := r9.2
    let s10 :=
      if w.memNew (javaMessageSize typeChars valueChars tracebackChars) then
        ThrowNew s9 JPy_RuntimeException_JClass
          (some (javaMessage typeChars valueChars tracebackChars))
      else
        ThrowNew s9 JPy_RuntimeException_JClass valueChars
    let s11 := Py_XDECREF (Py_XDECREF (Py_XDECREF s10 pyType) pyValue) pyTraceback
    let s12 := Py_XDECREF (Py_XDECREF (Py_XDECREF s11 pyTypeStr) pyValueStr) pyTracebackStr
    let s13 := Py_XDECREF (Py_XDECREF (Py_XDECREF s12 pyTypeUtf8) pyValueUtf8) pyTracebackUtf8
    PyErr_Clear s13

/-! ## Interpreter life cycle -/

/-- The function `PyLib_RedirectStdOut`. -/
def PyLib_RedirectStdOut (s : State) : State :=
  { emit s Event.RedirectStdOut with stdoutSink := true }

/-- The call `Py_Initialize()`. -/
def Py_Initialize (s : State) : State :=
  { emit s Event.Py_Initialize with pyInitialized := true }

/-- The call `Py_Finalize()`: the interpreter, and with it `sys.stdout`, is gone. -/
def Py_Finalize (s : State) : State :=
  { emit s Event.Py_Finalize with pyInitialized := false, stdoutSink := false }

/-- `PyImport_ImportModule("jpy")`.  As the comment in `startPython` says, importing `jpy`
makes Python call `PyInit_jpy`, which sets `JPy_Module`. -/
def PyImport_ImportModule_jpy (w : World) (s : State) : Option PyObject × State :=
  let s1 := emit s (Event.ImportModule "jpy")
  match w.importJpy with
  | .ok m => (some m, { Py_INCREF s1 m with JPy_Module := some m })
  | .error e => (none, PyErr_Set s1 e)

/-- `PyErr_Print`: prints the pending error and clears the indicator. -/
def PyErr_Print (s : State) : State :=
  PyErr_Clear (emit s Event.PyErr_Print)

/-- The entry point `Java_org_jpy_PyLib_isPythonRunning`. -/
def isPythonRunning (s : State) : Bool :=
  let init := s.pyInitialized
  init && s.JPy_Module != none

/-- The entry point `Java_org_jpy_PyLib_startPython`. -/
def startPython (w : World) (s : State) (options : List jobject) : State :=
  let s1 :=
    if !s.pyInitialized then
      PyLib_RedirectStdOut (Py_Initialize s)
    else s
  if s1.JPy_Module == none then
    match PyImport_ImportModule_jpy w s1 with
    | (none, s2) =>
      let s3 :=
        if s2.JPy_DiagFlags != 0 && s2.pyErr.isSome then PyErr_Print s2 else s2
      PyLib_HandlePythonException w s3
    | (some _, s2) => s2
  else s1

/-- The entry point `Java_org_jpy_PyLib_stopPython`. -/
def stopPython (s : State) : State :=
  if s.pyInitialized then Py_Finalize s else s

/-- The entry point `Java_org_jpy_PyLib_00024Diag_getFlags`. -/
def getFlags (s : State) : Int := s.JPy_DiagFlags

/-- The entry point `Java_org_jpy_PyLib_00024Diag_setFlags`. -/
def setFlags (s : State) (flags : Int) : State :=
  { s with JPy_DiagFlags := flags }

/-! ## Handles -/

/-- The entry point `Java_org_jpy_PyLib_incRef`. -/
def incRef (s : State) (objId : PyObject) : State :=
  if s.pyInitialized then
    Py_INCREF (JPy_BEGIN_GIL_STATE s) objId
  else s

/-- The entry point `Java_org_jpy_PyLib_decRef`. -/
def decRef (s : State) (objId : PyObject) : State :=
  if s.pyInitialized then
    let s1 := JPy_BEGIN_GIL_STATE s
    let refCount := s1.ob_refcnt objId
    if refCount ≤ 0 then s1 else Py_DECREF s1 objId
  else s

/-- The C cast to `jint`: reduction to 32 bits, two's complement. -/
def toJint (v : Int) : Int := (v + 2 ^ 31) % 2 ^ 32 - 2 ^ 31

/-- `PyLong_AsLong`: the value, or `-1` with an error set. -/
def PyLong_AsLong (w : World) (o : PyObject) (s : State) : Int × State :=
  match w.asLong o with
  | .ok v => (v, s)
  | .error e => (-1, PyErr_Set s e)

/-- `PyFloat_AsDouble`: the value, or `-1.0` with an error set. -/
def PyFloat_AsDouble (w : World) (o : PyObject) (s : State) : jdouble × State :=
  match w.asDouble o with
  | .ok v => (v, s)
  | .error e => (minusOneDouble, PyErr_Set s e)

/-- The entry point `Java_org_jpy_PyLib_getIntValue`. -/
def getIntValue (w : World) (s : State) (objId : PyObject) : Int × State :=
  let s1 := JPy_BEGIN_GIL_STATE s
  let (value, s2) := PyLong_AsLong w objId s1
  (toJint value, s2)

/-- The entry point `Java_org_jpy_PyLib_getDoubleValue`. -/
def getDoubleValue (w : World) (s : State) (objId : PyObject) : jdouble × State :=
  let s1 := JPy_BEGIN_GIL_STATE s
  PyFloat_AsDouble w objId s1

/-! ## Sequences to host arrays -/

/-- What a `jobject` result denotes on the host side. -/
inductive HostRef where
  | null
  | object (r : JRef)
  | newArray (itemClass : jclass) (items : List jobject)
deriving DecidableEq, Repr

/-- View a plain `jobject` as a host result. -/
def HostRef.ofJobject : jobject → HostRef
  | none => HostRef.null
  | some r => HostRef.object r

/-- An exception the JNI itself raises. -/
def jniThrow (s : State) (cls : String) : State :=
  { s with jException := some ⟨cls, none⟩ }

/-- `PySequence_GetItem`: a new reference to the item, or `NULL` with an error set. -/
def PySequence_GetItem (w : World) (o : PyObject) (i : Nat) (s : State) :
    Option PyObject × State :=
  let s1 := emit s (Event.SequenceGetItem o i)
  match w.getItem o i with
  | .ok r => (some r, Py_INCREF s1 r)
  | .error e => (none, PyErr_Set s1 e)

/-- `JPy_AsJObject`: the host object, or `none` for a negative return code. -/
def JPy_AsJObject (w : World) (o : PyObject) (s : State) : Option jobject × State :=
  let s1 := emit s (Event.AsJObject o none)
  match w.asJObject o with
  | .ok j => (some j, s1)
  | .error e => (none, PyErr_Set s1 e)

/-- `JPy_AsJObjectWithClass`: the host object, or `none` for a negative return code. -/
def JPy_AsJObjectWithClass (w : World) (o : PyObject) (cls : jclass) (s : State) :
    Option jobject × State :=
  let s1 := emit s (Event.AsJObject o cls)
  match w.asJObjectWithClass o cls with
  | .ok j => (some j, s1)
  | .error e => (none, PyErr_Set s1 e)

/-- JNI `SetObjectArrayElement`; a value of the wrong class raises `ArrayStoreException`. -/
def SetObjectArrayElement (w : World) (itemClass : jclass) (arr : List jobject) (i : Nat)
    (jItem : jobject) (s : State) : List jobject × State :=
  if w.arrayStoreOk itemClass jItem then (arr.set i jItem, s)
  else (arr, jniThrow s "java/lang/ArrayStoreException")

/-- The `for` loop of `getObjectArrayValue`; `none` is the exit through `goto error`. -/
def arrayLoop (w : World) (pyObject : PyObject) (itemClassRef : jclass) :
    Nat → Nat → List jobject → State → Option (List jobject) × State
  | 0, _, arr, s => (some arr, s)
  | n + 1, i, arr, s =>
    match PySequence_GetItem w pyObject i s with
    | (none, s1) => (none, s1)
    | (some pyItem, s1) =>
      match JPy_AsJObject w pyItem s1 with
      | (none, s2) => (none, PyLib_HandlePythonException w s2)
      | (some jItem, s2) =>
        let s3 := Py_XDECREF s2 (some pyItem)
        match SetObjectArrayElement w itemClassRef arr i jItem s3 with
        | (arr1, s4) =>
          if s4.jException.isSome then (none, s4)
          else arrayLoop w pyObject itemClassRef n (i + 1) arr1 s4

/-- `PySequence_Length`, cast to `jint`: the length, or `-1` with an error set. -/
def PySequence_Length (w : World) (o : PyObject) (s : State) : Int × State :=
  match w.seqLength o with
  | .ok v => (toJint v, s)
  | .error e => (-1, PyErr_Set s e)

/-- The entry point `Java_org_jpy_PyLib_getObjectArrayValue`. -/
def getObjectArrayValue (w : World) (s : State) (objId : PyObject) (itemClassRef : jclass) :
    HostRef × State :=
  let s1 := JPy_BEGIN_GIL_STATE s
  let pyObject := objId
  if pyObject = w.Py_None then (HostRef.null, s1)
  else
    match w.jobjRef pyObject with
    | some objectRef => (HostRef.ofJobject objectRef, s1)
    | none =>
      if w.isSequence pyObject then
        match PySequence_Length w pyObject s1 with
        | (length, s2) =>
          if length < 0 then
            -- NewObjectArray refuses a negative length; the loop body never runs
            (HostRef.null, jniThrow s2 "java/lang/NegativeArraySizeException")
          else
            match arrayLoop w pyObject itemClassRef length.toNat 0
                (List.replicate length.toNat none) s2 with
            | (some arr, s3) => (HostRef.newArray itemClassRef arr, s3)
            | (none, s3) => (HostRef.null, s3)
      else
        (HostRef.null,
          ThrowNew s1 JPy_RuntimeException_JClass
            (some "python object cannot be converted to Object[]"))

/-! ## Attributes and calls -/

/-- `PyObject_GetAttrString`: a new reference to the attribute, or `NULL` with an error set. -/
def PyObject_GetAttrString (w : World) (o : PyObject) (name : String) (s : State) :
    Option PyObject × State :=
  let s1 := emit s (Event.GetAttrString o name)
  match w.getAttr o name with
  | .ok r => (some r, Py_INCREF s1 r)
  | .error e => (none, PyErr_Set s1 e)

/-- The helper `PyLib_GetAttributeObject`. -/
def PyLib_GetAttributeObject (w : World) (s : State) (pyObject : PyObject) (jName : String) :
    Option PyObject × State :=
  match PyObject_GetAttrString w pyObject jName s with
  | (none, s1) => (none, PyLib_HandlePythonException w s1)
  | (some pyValue, s1) => (some pyValue, s1)

/-- The entry point `Java_org_jpy_PyLib_getAttributeObject`. -/
def getAttributeObject (w : World) (s : State) (objId : PyObject) (jName : String) :
    Option PyObject × State :=
  PyLib_GetAttributeObject w (JPy_BEGIN_GIL_STATE s) objId jName

/-- The entry point `Java_org_jpy_PyLib_getAttributeValue`. -/
def getAttributeValue (w : World) (s : State) (objId : PyObject) (jName : String)
    (jValueClass : jclass) : jobject × State :=
  let s1 := JPy_BEGIN_GIL_STATE s
  match PyLib_GetAttributeObject w s1 objId jName with
  | (none, s2) => (none, s2)
  | (some pyValue, s2) =>
    match JPy_AsJObjectWithClass w pyValue jValueClass s2 with
    | (none, s3) => (none, PyLib_HandlePythonException w s3)
    | (some jReturnValue, s3) => (jReturnValue, s3)

/-- JNI `GetObjectArrayElement`; an index outside the array raises and yields `NULL`. -/
def GetObjectArrayElement (arr : List jobject) (i : Nat) (s : State) : jobject × State :=
  match arr[i]? with
  | some j => (j, s)
  | none => (none, jniThrow s "java/lang/ArrayIndexOutOfBoundsException")

/-- `JType_GetType(jenv, cls, JNI_FALSE)`: the type, or `NULL` with an error set. -/
def JType_GetType (w : World) (i : Nat) (cls : JRef) (s : State) : Option JType × State :=
  let s1 := emit s (Event.GetType i cls)
  match w.getType cls with
  | .ok t => (some t, s1)
  | .error e => (none, PyErr_Set s1 e)

/-- `JPy_FromJObject` / `JPy_FromJObjectWithType`: a new reference, or `NULL`. -/
def JPy_FromJObjectWithType (w : World) (i : Nat) (jArg : jobject) (ty : Option JType)
    (s : State) : Option PyObject × State :=
  let s1 := emit s (Event.FromJObject i jArg ty)
  match w.fromJObject jArg ty with
  | .ok r => (some r, Py_INCREF s1 r)
  | .error e => (none, PyErr_Set s1 e)

/-- `PyTuple_New`: a tuple of `NULL` slots, or `NULL` with an error set for a negative size. -/
def PyTuple_New (w : World) (size : Int) (s : State) :
    Option (List (Option PyObject)) × State :=
  if size < 0 then (none, PyErr_Set s w.badInternalCall)
  else (some (List.replicate size.toNat none), s)

/-- `Py_XDECREF` of the argument tuple: the sole reference goes, so every slot is released. -/
def Py_XDECREF_tuple (s : State) : Option (List (Option PyObject)) → State
  | none => s
  | some items => items.foldl Py_XDECREF s

/-- `PyObject_CallObject`: a new reference to the result, or `NULL` with an error set. -/
def PyObject_CallObject (w : World) (callable : PyObject) (args : List PyObject) (s : State) :
    Option PyObject × State :=
  let s1 := emit s (Event.CallObject callable args)
  match w.call callable args with
  | .ok r => (some r, Py_INCREF s1 r)
  | .error e => (none, PyErr_Set s1 e)

/-- The body of the argument loop up to the assignment of `pyArg`.  The outer `none` is the
exit through `goto error` after a failed type lookup (already translated); otherwise the
value is `pyArg`, with `NULL` as the inner `none`. -/
def convertArg (w : World) (jArgs : List jobject) (jParamClasses : Option (List jclass))
    (i : Nat) (s : State) : Option (Option PyObject) × State :=
  match GetObjectArrayElement jArgs i s with
  | (jArg, s1) =>
    match (match jParamClasses with
           | some classes => GetObjectArrayElement classes i s1
           | none => (none, s1)) with
    | (some cls, s2) =>
      match JType_GetType w i cls s2 with
      | (none, s3) => (none, PyLib_HandlePythonException w s3)
      | (some paramType, s3) =>
        match JPy_FromJObjectWithType w i jArg (some paramType) s3 with
        | (pyArg, s4) => (some pyArg, s4)
    | (none, s2) =>
      match JPy_FromJObjectWithType w i jArg none s2 with
      | (pyArg, s4) => (some pyArg, s4)

/-- The argument loop of `PyLib_CallAndReturnObject`; `false` is the exit through
`goto error`.  The list is the content of `pyArgs`. -/
def argLoop (w : World) (jArgs : List jobject) (jParamClasses : Option (List jclass)) :
    Nat → Nat → List (Option PyObject) → State → Bool × List (Option PyObject) × State
  | 0, _, items, s => (true, items, s)
  | n + 1, i, items, s =>
    match convertArg w jArgs jParamClasses i s with
    | (none, s4) => (false, items, s4)
    | (some none, s4) => (false, items, PyLib_HandlePythonException w s4)
    | (some (some pyArg), s4) =>
      -- pyArg reference stolen here
      argLoop w jArgs jParamClasses n (i + 1) (items.set i (some pyArg)) s4

/-- The helper `PyLib_CallAndReturnObject`.  The flag `isMethodCall` is only printed. -/
def PyLib_CallAndReturnObject (w : World) (s : State) (pyObject : PyObject)
    (isMethodCall : Bool) (jName : String) (argCount : Int) (jArgs : List jobject)
    (jParamClasses : Option (List jclass)) : Option PyObject × State :=
  match PyObject_GetAttrString w pyObject jName s with
  | (none, s1) =>
    -- pyCallable and pyArgs are both NULL at the label
    (none, PyLib_HandlePythonException w s1)
  | (some pyCallable, s1) =>
    if !w.isCallable pyCallable then
      let s2 := PyLib_HandlePythonException w s1
      (none, Py_XDECREF_tuple (Py_XDECREF s2 (some pyCallable)) none)
    else
      match PyTuple_New w argCount s1 with
      | (pyArgs, s2) =>
        match argLoop w jArgs jParamClasses argCount.toNat 0 (pyArgs.getD []) s2 with
        | (false, items, s3) =>
          (none, Py_XDECREF_tuple (Py_XDECREF s3 (some pyCallable)) (pyArgs.map fun _ => items))
        | (true, items, s3) =>
          match PyObject_CallObject w pyCallable
              (if argCount > 0 then items.reduceOption else []) s3 with
          | (none, s4) =>
            let s5 := PyLib_HandlePythonException w s4
            (none,
              Py_XDECREF_tuple (Py_XDECREF s5 (some pyCallable)) (pyArgs.map fun _ => items))
          | (some pyReturnValue, s4) =>
            let s5 := Py_INCREF s4 pyReturnValue
            (some pyReturnValue,
              Py_XDECREF_tuple (Py_XDECREF s5 (some pyCallable)) (pyArgs.map fun _ => items))

/-- The entry point `Java_org_jpy_PyLib_callAndReturnObject`. -/
def callAndReturnObject (w : World) (s : State) (objId : PyObject) (isMethodCall : Bool)
    (jName : String) (argCount : Int) (jArgs : List jobject)
    (jParamClasses : Option (List jclass)) : Option PyObject × State :=
  PyLib_CallAndReturnObject w (JPy_BEGIN_GIL_STATE s) objId isMethodCall jName argCount jArgs
    jParamClasses

/-- The entry point `Java_org_jpy_PyLib_callAndReturnValue`. -/
def callAndReturnValue (w : World) (s : State) (objId : PyObject) (isMethodCall : Bool)
    (jName : String) (argCount : Int) (jArgs : List jobject)
    (jParamClasses : Option (List jclass)) (jReturnClass : jclass) : jobject × State :=
  let s1 := JPy_BEGIN_GIL_STATE s
  match PyLib_CallAndReturnObject w s1 objId isMethodCall jName argCount jArgs
      jParamClasses with
  | (none, s2) => (none, s2)
  | (some pyReturnValue, s2) =>
    match JPy_AsJObjectWithClass w pyReturnValue jReturnClass s2 with
    | (none, s3) =>
      let s4 := PyLib_HandlePythonException w s3
      (none, Py_DECREF s4 pyReturnValue)
    | (some jReturnValue, s3) => (jReturnValue, s3)

/-! ## Specification-level notions -/

/-- The text of one component of the guest error: string, encode, read the bytes; `none` as
soon as the component is absent or a step fails. -/
def charsOf (w : World) (x : Option PyObject) : Option String :=
  ((x.bind fun o => (w.str o).toOption).bind fun o => (w.encodeUtf8 o).toOption).bind
    fun o => (w.bytesAsString o).toOption

/-- The Java exception that translating the guest error `e` raises. -/
def translated (w : World) (e : PyErrState) : JThrowable :=
  ⟨JPy_RuntimeException_JClass,
    if w.memNew (javaMessageSize (charsOf w e.ptype) (charsOf w e.pvalue)
        (charsOf w e.ptraceback)) then
      some (javaMessage (charsOf w e.ptype) (charsOf w e.pvalue) (charsOf w e.ptraceback))
    else charsOf w e.pvalue⟩

/-- The state as the host sees it once a pending exception has been delivered. -/
def delivered (s : State) : State := { s with jException := none }

/-- One reference-count request of the host on a handle. -/
inductive RefOp where
  | inc
  | dec
deriving DecidableEq, Repr

/-- Run one request on the handle. -/
def applyOp (objId : PyObject) (s : State) : RefOp → State
  | RefOp.inc => incRef s objId
  | RefOp.dec => decRef s objId

/-- Run a sequence of requests on the handle, first to last, as far as the result is
defined: a request made with the interpreter initialized reads and writes the count of the
object, which has no defined result once the object is freed (`none`). -/
def runOps (objId : PyObject) : State → List RefOp → Option State
  | s, [] => some s
  | s, op :: rest =>
    if s.pyInitialized && s.freed objId then none
    else runOps objId (applyOp objId s op) rest

/-- A state with a running interpreter in which every object has the given count. -/
def runningState (count : Int) : State :=
  { pyInitialized := true, JPy_Module := some 1, JPy_DiagFlags := 0, JPy_InitThreads := true,
    stdoutSink := true, ob_refcnt := fun _ => count, pyErr := none, jException := none,
    trace := [], freed := fun _ => false }

/-- One if the pointer `x` is the object `o`, zero otherwise. -/
def ind (x : Option PyObject) (o : PyObject) : Int := if x = some o then 1 else 0

/-- The references the guest error indicator holds on the object `o`. -/
def indicatorRefs (s : State) (o : PyObject) : Int :=
  match s.pyErr with
  | none => 0
  | some e => ind e.ptype o + ind e.pvalue o + ind e.ptraceback o

/-- The count of `o` without the references the guest error indicator holds on it: the
references held by the guest heap, by the host and by the running native code. -/
def ownedRefs (s : State) (o : PyObject) : Int := s.ob_refcnt o - indicatorRefs s o

/-- The references the slots of an argument tuple hold on the object `o`. -/
def tupleRefs (items : List (Option PyObject)) (o : PyObject) : Int := (items.count (some o) : Int)

/-- The host argument the loop reads at index `i` (`NULL` outside the array). -/
def jArgAt (jArgs : List jobject) (i : Nat) : jobject := (jArgs[i]?).getD none

/-- The parameter class the loop reads at index `i` (`NULL` without a class array). -/
def paramClassAt (jParamClasses : Option (List jclass)) (i : Nat) : jclass :=
  match jParamClasses with
  | some classes => (classes[i]?).getD none
  | none => none

/-- Whether the type lookup for argument `i` succeeds; trivially so without a class. -/
def typeLookupOk (w : World) (jParamClasses : Option (List jclass)) (i : Nat) : Bool :=
  match paramClassAt jParamClasses i with
  | some cls => (w.getType cls).toBool
  | none => true

/-- The marshalling of argument `i` from host to guest as the loop body performs it: the
type lookup when a parameter class is given, then the conversion. -/
def marshalOf (w : World) (jArgs : List jobject) (jParamClasses : Option (List jclass))
    (i : Nat) : Except PyErrState PyObject :=
  match paramClassAt jParamClasses i with
  | some cls =>
    match w.getType cls with
    | .ok paramType => w.fromJObject (jArgAt jArgs i) (some paramType)
    | .error e => .error e
  | none => w.fromJObject (jArgAt jArgs i) none

/-- The index of the argument an event converts, if the event is a conversion. -/
def Event.conversionIndex : Event → Option Nat
  | Event.FromJObject i _ _ => some i
  | _ => none

/-- Whether the event is an invocation of a guest callable. -/
def Event.isCall : Event → Bool
  | Event.CallObject _ _ => true
  | _ => false

/-! ## A small concrete guest and host

Object 1 is a guest object with three attributes: `f` (object 2, a function), `x` (object 3,
the integer 5) and `y` (object 5, a value with no host counterpart).  Object 6 is a sequence
of length 2 whose item 0 is object 3 and whose item 1 cannot be fetched.  Object 9 is a text.
Objects 10 to 17 are exception types and values. -/

/-- The error of a missing attribute. -/
def attributeError : PyErrState := ⟨some 10, some 11, none⟩

/-- The error of a value of the wrong kind. -/
def typeError : PyErrState := ⟨some 12, some 13, none⟩

/-- The error of a failed item access. -/
def indexError : PyErrState := ⟨some 14, some 15, none⟩

/-- The error of `PyErr_BadInternalCall`. -/
def systemError : PyErrState := ⟨some 16, some 17, none⟩

/-- The concrete guest and host used to run the entry points on explicit inputs. -/
def demoWorld : World :=
  { importJpy := .ok 1
    str := fun o => .ok (o + 100)
    encodeUtf8 := fun o => .ok (o + 100)
    bytesAsString := fun o => .ok (if o % 2 = 0 then "Error" else "bad value")
    memNew := fun _ => true
    getAttr := fun o name =>
      if o = 1 ∧ name = "f" then .ok 2
      else if o = 1 ∧ name = "x" then .ok 3
      else if o = 1 ∧ name = "y" then .ok 5
      else .error attributeError
    isCallable := fun o => o == 2
    getType := fun cls => .ok cls
    fromJObject := fun j _ =>
      match j with
      | some r => .ok (r + 1000)
      | none => .error typeError
    call := fun _ args => .ok (args.length + 2000)
    badInternalCall := systemError
    asLong := fun o => if o = 3 then .ok 5 else .error typeError
    asDouble := fun o => if o = 4 then .ok 0x4004000000000000 else .error typeError
    asJObject := fun o => if o = 3 then .ok (some 55) else .error typeError
    asJObjectWithClass := fun o _ => if o = 3 then .ok (some 55) else .error typeError
    Py_None := 0
    jobjRef := fun _ => none
    isSequence := fun o => o == 6
    seqLength := fun _ => .ok 2
    getItem := fun _ i => if i = 0 then .ok 3 else .error indexError
    arrayStoreOk := fun _ _ => true }

/-- The error of a failed import. -/
def importError : PyErrState := ⟨some 18, some 19, none⟩

/-- An error that carries a traceback object. -/
def tracedError : PyErrState := ⟨some 12, some 13, some 20⟩

/-- The demonstration guest on a host where `PyMem_New` finds no memory. -/
def demoWorldNoMemory : World := { demoWorld with memNew := fun _ => false }

/-- The demonstration guest without an importable module `jpy`. -/
def demoWorldNoJpy : World := { demoWorld with importJpy := .error importError }

/-- A process in which the interpreter was never started, with the given diagnostic flags. -/
def stoppedState (flags : Int) : State :=
  { pyInitialized := false, JPy_Module := none, JPy_DiagFlags := flags,
    JPy_InitThreads := false, stdoutSink := false, ob_refcnt := fun _ => 1, pyErr := none,
    jException := none, trace := [], freed := fun _ => false }

/-- The message as the specification words it: `Python error: T: V`, followed by the
traceback text on a line of its own when there is one. -/
def specMessage (T V : String) (B : Option String) : String :=
  match B with
  | none => "Python error: " ++ T ++ ": " ++ V
  | some b => "Python error: " ++ T ++ ": " ++ V ++ "\nTraceback: " ++ b

/-! ## Frame lemmas for the primitive operations -/

@[simp] theorem Py_INCREF_frame (s : State) (o : PyObject) :
    (Py_INCREF s o).pyInitialized = s.pyInitialized ∧ (Py_INCREF s o).JPy_Module = s.JPy_Module ∧
    (Py_INCREF s o).JPy_DiagFlags = s.JPy_DiagFlags ∧
    (Py_INCREF s o).JPy_InitThreads = s.JPy_InitThreads ∧
    (Py_INCREF s o).stdoutSink = s.stdoutSink ∧ (Py_INCREF s o).pyErr = s.pyErr ∧
    (Py_INCREF s o).jException = s.jException ∧ (Py_INCREF s o).trace = s.trace := by
  simp [Py_INCREF]

@[simp] theorem Py_DECREF_frame (s : State) (o : PyObject) :
    (Py_DECREF s o).pyInitialized = s.pyInitialized ∧ (Py_DECREF s o).JPy_Module = s.JPy_Module ∧
    (Py_DECREF s o).JPy_DiagFlags = s.JPy_DiagFlags ∧
    (Py_DECREF s o).JPy_InitThreads = s.JPy_InitThreads ∧
    (Py_DECREF s o).stdoutSink = s.stdoutSink ∧ (Py_DECREF s o).pyErr = s.pyErr ∧
    (Py_DECREF s o).jException = s.jException ∧ (Py_DECREF s o).trace = s.trace := by
  simp [Py_DECREF]

@[simp] theorem Py_XDECREF_frame (s : State) (o : Option PyObject) :
    (Py_XDECREF s o).pyInitialized = s.pyInitialized ∧
    (Py_XDECREF s o).JPy_Module = s.JPy_Module ∧
    (Py_XDECREF s o).JPy_DiagFlags = s.JPy_DiagFlags ∧
    (Py_XDECREF s o).JPy_InitThreads = s.JPy_InitThreads ∧
    (Py_XDECREF s o).stdoutSink = s.stdoutSink ∧ (Py_XDECREF s o).pyErr = s.pyErr ∧
    (Py_XDECREF s o).jException = s.jException ∧ (Py_XDECREF s o).trace = s.trace := by
  cases o <;> simp [Py_XDECREF]

@[simp] theorem Py_XINCREF_frame (s : State) (o : Option PyObject) :
    (Py_XINCREF s o).pyInitialized = s.pyInitialized ∧
    (Py_XINCREF s o).JPy_Module = s.JPy_Module ∧
    (Py_XINCREF s o).JPy_DiagFlags = s.JPy_DiagFlags ∧
    (Py_XINCREF s o).JPy_InitThreads = s.JPy_InitThreads ∧
    (Py_XINCREF s o).stdoutSink = s.stdoutSink ∧ (Py_XINCREF s o).pyErr = s.pyErr ∧
    (Py_XINCREF s o).jException = s.jException ∧ (Py_XINCREF s o).trace = s.trace := by
  cases o <;> simp [Py_XINCREF]

@[simp] theorem PyErr_Clear_frame (s : State) :
    (PyErr_Clear s).pyInitialized = s.pyInitialized ∧
    (PyErr_Clear s).JPy_Module = s.JPy_Module ∧
    (PyErr_Clear s).JPy_DiagFlags = s.JPy_DiagFlags ∧
    (PyErr_Clear s).JPy_InitThreads = s.JPy_InitThreads ∧
    (PyErr_Clear s).stdoutSink = s.stdoutSink ∧ (PyErr_Clear s).pyErr = none ∧
    (PyErr_Clear s).jException = s.jException ∧ (PyErr_Clear s).trace = s.trace := by
  unfold PyErr_Clear
  cases h : s.pyErr <;> simp [h]

@[simp] theorem PyErr_Set_frame (s : State) (e : PyErrState) :
    (PyErr_Set s e).pyInitialized = s.pyInitialized ∧
    (PyErr_Set s e).JPy_Module = s.JPy_Module ∧
    (PyErr_Set s e).JPy_DiagFlags = s.JPy_DiagFlags ∧
    (PyErr_Set s e).JPy_InitThreads = s.JPy_InitThreads ∧
    (PyErr_Set s e).stdoutSink = s.stdoutSink ∧ (PyErr_Set s e).pyErr = some e ∧
    (PyErr_Set s e).jException = s.jException ∧ (PyErr_Set s e).trace = s.trace := by
  simp [PyErr_Set]

@[simp] theorem emit_frame (s : State) (ev : Event) :
    (emit s ev).pyInitialized = s.pyInitialized ∧ (emit s ev).JPy_Module = s.JPy_Module ∧
    (emit s ev).JPy_DiagFlags = s.JPy_DiagFlags ∧
    (emit s ev).JPy_InitThreads = s.JPy_InitThreads ∧
    (emit s ev).stdoutSink = s.stdoutSink ∧ (emit s ev).pyErr = s.pyErr ∧
    (emit s ev).jException = s.jException ∧ (emit s ev).trace = s.trace ++ [ev] ∧
    (emit s ev).ob_refcnt = s.ob_refcnt := by
  simp [emit]

@[simp] theorem ThrowNew_frame (s : State) (cls : String) (m : Option String) :
    (ThrowNew s cls m).pyInitialized = s.pyInitialized ∧
    (ThrowNew s cls m).JPy_Module = s.JPy_Module ∧
    (ThrowNew s cls m).JPy_DiagFlags = s.JPy_DiagFlags ∧
    (ThrowNew s cls m).JPy_InitThreads = s.JPy_InitThreads ∧
    (ThrowNew s cls m).stdoutSink = s.stdoutSink ∧ (ThrowNew s cls m).pyErr = s.pyErr ∧
    (ThrowNew s cls m).jException = some ⟨cls, m⟩ ∧
    (ThrowNew s cls m).trace = s.trace ++ [Event.ThrowNew cls m] ∧
    (ThrowNew s cls m).ob_refcnt = s.ob_refcnt := by
  simp [ThrowNew]

@[simp] theorem jniThrow_frame (s : State) (cls : String) :
    (jniThrow s cls).pyInitialized = s.pyInitialized ∧
    (jniThrow s cls).JPy_Module = s.JPy_Module ∧
    (jniThrow s cls).JPy_DiagFlags = s.JPy_DiagFlags ∧
    (jniThrow s cls).JPy_InitThreads = s.JPy_InitThreads ∧
    (jniThrow s cls).stdoutSink = s.stdoutSink ∧ (jniThrow s cls).pyErr = s.pyErr ∧
    (jniThrow s cls).jException = some ⟨cls, none⟩ ∧ (jniThrow s cls).trace = s.trace ∧
    (jniThrow s cls).ob_refcnt = s.ob_refcnt := by
  simp [jniThrow]

@[simp] theorem JPy_BEGIN_GIL_STATE_frame (s : State) :
    (JPy_BEGIN_GIL_STATE s).pyInitialized = s.pyInitialized ∧
    (JPy_BEGIN_GIL_STATE s).JPy_Module = s.JPy_Module ∧
    (JPy_BEGIN_GIL_STATE s).JPy_DiagFlags = s.JPy_DiagFlags ∧
    (JPy_BEGIN_GIL_STATE s).JPy_InitThreads = true ∧
    (JPy_BEGIN_GIL_STATE s).stdoutSink = s.stdoutSink ∧
    (JPy_BEGIN_GIL_STATE s).pyErr = s.pyErr ∧
    (JPy_BEGIN_GIL_STATE s).jException = s.jException ∧
    (JPy_BEGIN_GIL_STATE s).trace = s.trace ∧
    (JPy_BEGIN_GIL_STATE s).ob_refcnt = s.ob_refcnt := by
  unfold JPy_BEGIN_GIL_STATE
  cases h : s.JPy_InitThreads <;> simp [h]

/-! ## The three steps that turn an error component into text -/

@[simp] theorem PyObject_Str_frame (w : World) (o : PyObject) (s : State) :
    (PyObject_Str w o s).1 = (w.str o).toOption ∧
    (PyObject_Str w o s).2.pyInitialized = s.pyInitialized ∧
    (PyObject_Str w o s).2.JPy_Module = s.JPy_Module ∧
    (PyObject_Str w o s).2.JPy_DiagFlags = s.JPy_DiagFlags ∧
    (PyObject_Str w o s).2.JPy_InitThreads = s.JPy_InitThreads ∧
    (PyObject_Str w o s).2.stdoutSink = s.stdoutSink ∧
    (PyObject_Str w o s).2.jException = s.jException ∧
    (PyObject_Str w o s).2.trace = s.trace := by
  unfold PyObject_Str
  cases w.str o <;> simp [Except.toOption]

@[simp] theorem PyUnicode_AsEncodedString_frame (w : World) (o : PyObject) (s : State) :
    (PyUnicode_AsEncodedString w o s).1 = (w.encodeUtf8 o).toOption ∧
    (PyUnicode_AsEncodedString w o s).2.pyInitialized = s.pyInitialized ∧
    (PyUnicode_AsEncodedString w o s).2.JPy_Module = s.JPy_Module ∧
    (PyUnicode_AsEncodedString w o s).2.JPy_DiagFlags = s.JPy_DiagFlags ∧
    (PyUnicode_AsEncodedString w o s).2.JPy_InitThreads = s.JPy_InitThreads ∧
    (PyUnicode_AsEncodedString w o s).2.stdoutSink = s.stdoutSink ∧
    (PyUnicode_AsEncodedString w o s).2.jException = s.jException ∧
    (PyUnicode_AsEncodedString w o s).2.trace = s.trace := by
  unfold PyUnicode_AsEncodedString
  cases w.encodeUtf8 o <;> simp [Except.toOption]

@[simp] theorem PyBytes_AsString_frame (w : World) (o : PyObject) (s : State) :
    (PyBytes_AsString w o s).1 = (w.bytesAsString o).toOption ∧
    (PyBytes_AsString w o s).2.pyInitialized = s.pyInitialized ∧
    (PyBytes_AsString w o s).2.JPy_Module = s.JPy_Module ∧
    (PyBytes_AsString w o s).2.JPy_DiagFlags = s.JPy_DiagFlags ∧
    (PyBytes_AsString w o s).2.JPy_InitThreads = s.JPy_InitThreads ∧
    (PyBytes_AsString w o s).2.stdoutSink = s.stdoutSink ∧
    (PyBytes_AsString w o s).2.jException = s.jException ∧
    (PyBytes_AsString w o s).2.trace = s.trace := by
  unfold PyBytes_AsString
  cases w.bytesAsString o <;> simp [Except.toOption]

@[simp] theorem ifNonNull_PyObject_Str (w : World) (x : Option PyObject) (s : State) :
    (ifNonNull x (PyObject_Str w) s).1 = (x.bind fun o => (w.str o).toOption) ∧
    (ifNonNull x (PyObject_Str w) s).2.pyInitialized = s.pyInitialized ∧
    (ifNonNull x (PyObject_Str w) s).2.JPy_Module = s.JPy_Module ∧
    (ifNonNull x (PyObject_Str w) s).2.JPy_DiagFlags = s.JPy_DiagFlags ∧
    (ifNonNull x (PyObject_Str w) s).2.JPy_InitThreads = s.JPy_InitThreads ∧
    (ifNonNull x (PyObject_Str w) s).2.stdoutSink = s.stdoutSink ∧
    (ifNonNull x (PyObject_Str w) s).2.jException = s.jException ∧
    (ifNonNull x (PyObject_Str w) s).2.trace = s.trace := by
  cases x <;> simp [ifNonNull]

@[simp] theorem ifNonNull_PyUnicode_AsEncodedString (w : World) (x : Option PyObject) (s : State) :
    (ifNonNull x (PyUnicode_AsEncodedString w) s).1 = (x.bind fun o => (w.encodeUtf8 o).toOption) ∧
    (ifNonNull x (PyUnicode_AsEncodedString w) s).2.pyInitialized = s.pyInitialized ∧
    (ifNonNull x (PyUnicode_AsEncodedString w) s).2.JPy_Module = s.JPy_Module ∧
    (ifNonNull x (PyUnicode_AsEncodedString w) s).2.JPy_DiagFlags = s.JPy_DiagFlags ∧
    (ifNonNull x (PyUnicode_AsEncodedString w) s).2.JPy_InitThreads = s.JPy_InitThreads ∧
    (ifNonNull x (PyUnicode_AsEncodedString w) s).2.stdoutSink = s.stdoutSink ∧
    (ifNonNull x (PyUnicode_AsEncodedString w) s).2.jException = s.jException ∧
    (ifNonNull x (PyUnicode_AsEncodedString w) s).2.trace = s.trace := by
  cases x <;> simp [ifNonNull]

@[simp] theorem ifNonNull_PyBytes_AsString (w : World) (x : Option PyObject) (s : State) :
    (ifNonNull x (PyBytes_AsString w) s).1 = (x.bind fun o => (w.bytesAsString o).toOption) ∧
    (ifNonNull x (PyBytes_AsString w) s).2.pyInitialized = s.pyInitialized ∧
    (ifNonNull x (PyBytes_AsString w) s).2.JPy_Module = s.JPy_Module ∧
    (ifNonNull x (PyBytes_AsString w) s).2.JPy_DiagFlags = s.JPy_DiagFlags ∧
    (ifNonNull x (PyBytes_AsString w) s).2.JPy_InitThreads = s.JPy_InitThreads ∧
    (ifNonNull x (PyBytes_AsString w) s).2.stdoutSink = s.stdoutSink ∧
    (ifNonNull x (PyBytes_AsString w) s).2.jException = s.jException ∧
    (ifNonNull x (PyBytes_AsString w) s).2.trace = s.trace := by
  cases x <;> simp [ifNonNull]

/-- What translating the guest error does to everything but the reference counts: a state
without pending guest error is left alone; otherwise `translated` is thrown, the indicator
is cleared, and the life-cycle fields are kept. -/
theorem PyLib_HandlePythonException_frame (w : World) (s : State) :
    (PyLib_HandlePythonException w s).pyInitialized = s.pyInitialized ∧
    (PyLib_HandlePythonException w s).JPy_Module = s.JPy_Module ∧
    (PyLib_HandlePythonException w s).JPy_DiagFlags = s.JPy_DiagFlags ∧
    (PyLib_HandlePythonException w s).JPy_InitThreads = s.JPy_InitThreads ∧
    (PyLib_HandlePythonException w s).stdoutSink = s.stdoutSink ∧
    (PyLib_HandlePythonException w s).pyErr = none ∧
    (PyLib_HandlePythonException w s).jException =
      (match s.pyErr with
       | none => s.jException
       | some e => some (translated w e)) ∧
    (PyLib_HandlePythonException w s).trace =
      (match s.pyErr with
       | none => s.trace
       | some e => s.trace ++ [Event.ThrowNew (translated w e).cls (translated w e).message]) := by
  unfold PyLib_HandlePythonException
  cases h : s.pyErr with
  | none => simp [h]
  | some e =>
    simp only [translated, charsOf, ifNonNull_PyObject_Str, ifNonNull_PyUnicode_AsEncodedString,
      ifNonNull_PyBytes_AsString]
    split_ifs with hm <;> simp

/-! ## Life cycle -/

/-- The life-cycle fields after `startPython`, in closed form. -/
theorem startPython_fields (w : World) (s : State) (options : List jobject) :
    (startPython w s options).pyInitialized = true ∧
    (startPython w s options).JPy_DiagFlags = s.JPy_DiagFlags ∧
    (startPython w s options).stdoutSink = (if s.pyInitialized then s.stdoutSink else true) ∧
    (startPython w s options).JPy_Module =
      (match s.JPy_Module with
       | some m => some m
       | none => w.importJpy.toOption) ∧
    (startPython w s options).jException =
      (match s.JPy_Module, w.importJpy with
       | some _, _ => s.jException
       | none, .ok _ => s.jException
       | none, .error e => if s.JPy_DiagFlags = 0 then some (translated w e) else s.jException) := by
  unfold startPython
  cases hi : s.pyInitialized <;> cases hm : s.JPy_Module <;> cases hw : w.importJpy <;>
    by_cases hf : s.JPy_DiagFlags = 0 <;>
    simp [hi, hm, hw, hf, PyLib_RedirectStdOut, Py_Initialize, PyImport_ImportModule_jpy,
      PyErr_Print, PyLib_HandlePythonException_frame, Except.toOption]

/-- C1. `isPythonRunning` answers true exactly when the interpreter is initialized and the
global `JPy_Module` is set; with `JPy_Module` unset the answer is false whatever the
interpreter's liveness. -/
theorem isPythonRunning_iff (s : State) :
    (isPythonRunning s = true ↔ s.pyInitialized = true ∧ s.JPy_Module ≠ none) ∧
    isPythonRunning { s with pyInitialized := true, JPy_Module := none } = false := by
  simp [isPythonRunning]

/-- C2. `startPython` is idempotent: a second run in a row leaves the initialized flag, the
companion-module global, the output redirector and the pending host exception as the first
run left them; the second run raises exactly when the first did (each run entered with no
exception pending); and on a state that is initialized with `JPy_Module` set the call
changes nothing at all, so it neither initializes nor imports again. -/
theorem startPython_idempotent (w : World) (s : State) (options : List jobject) :
    (startPython w (startPython w s options) options).pyInitialized
      = (startPython w s options).pyInitialized ∧
    (startPython w (startPython w s options) options).JPy_Module
      = (startPython w s options).JPy_Module ∧
    (startPython w (startPython w s options) options).stdoutSink
      = (startPython w s options).stdoutSink ∧
    (startPython w (startPython w s options) options).jException
      = (startPython w s options).jException ∧
    (startPython w (delivered (startPython w (delivered s) options)) options).jException =
      (startPython w (delivered s) options).jException ∧
    (∀ m : PyObject,
      startPython w { s with pyInitialized := true, JPy_Module := some m } options =
        { s with pyInitialized := true, JPy_Module := some m }) := by
  have h1 := startPython_fields w s options
  have h2 := startPython_fields w (startPython w s options) options
  have h3 := startPython_fields w (delivered s) options
  have h4 := startPython_fields w (delivered (startPython w (delivered s) options)) options
  obtain ⟨a1, a2, a3, a4, a5⟩ := h1
  obtain ⟨b1, b2, b3, b4, b5⟩ := h2
  obtain ⟨c1, c2, c3, c4, c5⟩ := h3
  obtain ⟨d1, d2, d3, d4, d5⟩ := h4
  refine ⟨by rw [b1, a1], ?_, ?_, ?_, ?_, ?_⟩
  · rw [b4, a4]
    cases hm : s.JPy_Module <;> cases hw : w.importJpy <;> simp [Except.toOption]
  · rw [b3, a1]; simp
  · rw [b5, a4, a2, a5]
    cases hm : s.JPy_Module <;> cases hw : w.importJpy <;>
      by_cases hf : s.JPy_DiagFlags = 0 <;> simp [Except.toOption, hf]
  · rw [d5, c5]
    simp only [delivered] at c2 c4 ⊢
    rw [c4, c2]
    cases hm : s.JPy_Module <;> cases hw : w.importJpy <;>
      by_cases hf : s.JPy_DiagFlags = 0 <;> simp [Except.toOption, hf]
  · intro m
    simp [startPython]

/-- C3. With the interpreter initialized, `decRef` leaves a count that is zero or negative
as it is and takes exactly one off a count of at least one; no other object's count moves,
and no host exception and no guest error is raised. -/
theorem decRef_effect (s : State) (objId : PyObject) (hinit : s.pyInitialized = true) :
    (decRef s objId).ob_refcnt objId =
      (if s.ob_refcnt objId ≤ 0 then s.ob_refcnt objId else s.ob_refcnt objId - 1) ∧
    (∀ o, o ≠ objId → (decRef s objId).ob_refcnt o = s.ob_refcnt o) ∧
    (decRef s objId).jException = s.jException ∧
    (decRef s objId).pyErr = s.pyErr := by
  unfold decRef
  by_cases hc : s.ob_refcnt objId ≤ 0 <;> simp [hinit, hc, Py_DECREF]

/-- Witness for `decRef_effect`: a handle with count 0 and a handle with count 2. -/
theorem decRef_effect_witness :
    (runningState 0).pyInitialized = true ∧
    ((decRef (runningState 0) 7).ob_refcnt 7 = 0 ∧
      (decRef (runningState 0) 7).jException = none) ∧
    (decRef (runningState 2) 7).ob_refcnt 7 = 1 := by
  have h0 := decRef_effect (runningState 0) 7 rfl
  have h2 := decRef_effect (runningState 2) 7 rfl
  refine ⟨rfl, ⟨?_, ?_⟩, ?_⟩
  · rw [h0.1]; decide
  · rw [h0.2.2.1]; rfl
  · rw [h2.1]; decide

/-! ## Handles -/

theorem JPy_BEGIN_GIL_STATE_freed (s : State) : (JPy_BEGIN_GIL_STATE s).freed = s.freed := by
  unfold JPy_BEGIN_GIL_STATE
  cases h : s.JPy_InitThreads <;> simp [h]

theorem incRef_initialized (s : State) (objId : PyObject) (hinit : s.pyInitialized = true) :
    (incRef s objId).ob_refcnt objId = s.ob_refcnt objId + 1 ∧
    (incRef s objId).pyInitialized = true ∧ (incRef s objId).freed = s.freed := by
  refine ⟨?_, ?_, ?_⟩
  · simp [incRef, hinit, Py_INCREF]
  · simp [incRef, hinit]
  · simp only [incRef, hinit, if_true, Py_INCREF]
    exact JPy_BEGIN_GIL_STATE_freed s

/-- A `decRef` that meets a count of at least two takes one off and frees nothing. -/
theorem decRef_initialized (s : State) (objId : PyObject) (hinit : s.pyInitialized = true)
    (hpos : 1 < s.ob_refcnt objId) (hlive : s.freed objId = false) :
    (decRef s objId).ob_refcnt objId = s.ob_refcnt objId - 1 ∧
    (decRef s objId).pyInitialized = true ∧ (decRef s objId).freed objId = false := by
  have hc : ¬ s.ob_refcnt objId ≤ 0 := by omega
  have h0 : ¬ s.ob_refcnt objId - 1 = 0 := by omega
  refine ⟨?_, ?_, ?_⟩
  · simp [decRef, hinit, hc, Py_DECREF]
  · simp [decRef, hinit, hc]
  · simp [decRef, hinit, hc, h0, Py_DECREF, JPy_BEGIN_GIL_STATE_freed, hlive]

/-- Without an interpreter no request touches the object. -/
theorem runOps_not_initialized (objId : PyObject) (ops : List RefOp) (s : State)
    (hinit : s.pyInitialized = false) : runOps objId s ops = some s := by
  induction ops with
  | nil => rfl
  | cons op rest ih =>
    have h1 : applyOp objId s op = s := by cases op <;> simp [applyOp, incRef, decRef, hinit]
    simp only [runOps, hinit, Bool.false_and, Bool.false_eq_true, if_false, h1]
    exact ih

/-- When every `decRef` of the sequence meets a count of at least two, the object stays
alive, the run is defined and every request takes effect. -/
theorem runOps_initialized (objId : PyObject) (ops : List RefOp) :
    ∀ s : State, s.pyInitialized = true → s.freed objId = false →
      (∀ i, i < ops.length → ops[i]? = some RefOp.dec →
        ((ops.take i).count RefOp.dec : Int) + 1
          < s.ob_refcnt objId + ((ops.take i).count RefOp.inc : Int)) →
      ∃ s1, runOps objId s ops = some s1 ∧
        s1.ob_refcnt objId =
          s.ob_refcnt objId + (ops.count RefOp.inc : Int) - (ops.count RefOp.dec : Int) ∧
        s1.freed objId = false := by
  induction ops with
  | nil => intro s _ hlive _; exact ⟨s, rfl, by simp, hlive⟩
  | cons op rest ih =>
    intro s hinit hlive hsafe
    have hstep : runOps objId s (op :: rest) = runOps objId (applyOp objId s op) rest := by
      simp [runOps, hlive]
    rw [hstep]
    cases op with
    | inc =>
      obtain ⟨hc, hi, hf⟩ := incRef_initialized s objId hinit
      obtain ⟨s1, hrun, hcount, hfree⟩ := ih (incRef s objId) hi (by rw [hf]; exact hlive) (by
        intro i hi1 hd
        have := hsafe (i + 1) (by simpa using hi1) (by simpa using hd)
        simp at this
        rw [hc]; omega)
      refine ⟨s1, hrun, ?_, hfree⟩
      rw [hcount, hc]
      simp
      omega
    | dec =>
      have h0 := hsafe 0 (by simp) (by simp)
      simp at h0
      obtain ⟨hc, hi, hf⟩ := decRef_initialized s objId hinit h0 hlive
      obtain ⟨s1, hrun, hcount, hfree⟩ := ih (decRef s objId) hi hf (by
        intro i hi1 hd
        have := hsafe (i + 1) (by simpa using hi1) (by simpa using hd)
        simp at this
        rw [hc]; omega)
      refine ⟨s1, hrun, ?_, hfree⟩
      rw [hcount, hc]
      simp
      omega

/-- C4, counterexample. A live handle with count 1 that is released and then retained (one
`decRef`, one `incRef`): the `decRef` brings the count to zero, so `Py_DECREF` frees the
object, and the `incRef` that follows reads and writes freed memory.  The run has no
defined result, so it does not return the count of the guest value to 1; no interleaving
of this kind does. -/
theorem refcount_interleaving_counterexample :
    (runningState 1).ob_refcnt 7 = 1 ∧ (runningState 1).freed 7 = false ∧
    [RefOp.dec, RefOp.inc].count RefOp.inc = 1 ∧
    [RefOp.dec, RefOp.inc].count RefOp.dec = 1 ∧
    (decRef (runningState 1) 7).ob_refcnt 7 = 0 ∧
    (decRef (runningState 1) 7).freed 7 = true ∧
    (runOps 7 (runningState 1) [RefOp.dec, RefOp.inc]).isSome = false ∧
    ¬ (∀ ops : List RefOp, ops.count RefOp.inc = ops.count RefOp.dec →
        ∃ s1, runOps 7 (runningState 1) ops = some s1 ∧
          s1.ob_refcnt 7 = (runningState 1).ob_refcnt 7) := by
  have hnone : (runOps 7 (runningState 1) [RefOp.dec, RefOp.inc]).isSome = false := by decide
  refine ⟨by decide, by decide, by decide, by decide, by decide, by decide, hnone, ?_⟩
  intro h
  obtain ⟨s1, hs1, _⟩ := h [RefOp.dec, RefOp.inc] (by decide)
  rw [hs1] at hnone
  simp at hnone

/-- C4, amended. A sequence of `incRef` and `decRef` requests on one live handle with as
many of the one as of the other has a defined result and returns the count to its initial
value, the object still alive, provided the sequence never brings the count to zero: every
`decRef` meets a count of at least two (before each `decRef`, the decrements so far plus one
are fewer than the initial count plus the increments so far). -/
theorem refcount_restored (s : State) (objId : PyObject) (ops : List RefOp)
    (hlive : s.freed objId = false)
    (hbal : ops.count RefOp.inc = ops.count RefOp.dec)
    (hsafe : ∀ i, i < ops.length → ops[i]? = some RefOp.dec →
      ((ops.take i).count RefOp.dec : Int) + 1
        < s.ob_refcnt objId + ((ops.take i).count RefOp.inc : Int)) :
    ∃ s1, runOps objId s ops = some s1 ∧ s1.ob_refcnt objId = s.ob_refcnt objId ∧
      s1.freed objId = false := by
  cases hinit : s.pyInitialized with
  | false => exact ⟨s, runOps_not_initialized objId ops s hinit, rfl, hlive⟩
  | true =>
    obtain ⟨s1, hrun, hcount, hfree⟩ := runOps_initialized objId ops s hinit hlive hsafe
    refine ⟨s1, hrun, ?_, hfree⟩
    rw [hcount, hbal]
    omega

/-- Witness for `refcount_restored`: retain, release, retain, release on a count of 1; the
count reads 2, 1, 2, 1. -/
theorem refcount_restored_witness :
    (runningState 1).freed 7 = false ∧
    [RefOp.inc, RefOp.dec, RefOp.inc, RefOp.dec].count RefOp.inc
      = [RefOp.inc, RefOp.dec, RefOp.inc, RefOp.dec].count RefOp.dec ∧
    ∃ s1, runOps 7 (runningState 1) [RefOp.inc, RefOp.dec, RefOp.inc, RefOp.dec] = some s1 ∧
      s1.ob_refcnt 7 = (runningState 1).ob_refcnt 7 ∧ s1.freed 7 = false :=
  ⟨rfl, by decide,
    refcount_restored (runningState 1) 7 [RefOp.inc, RefOp.dec, RefOp.inc, RefOp.dec]
      rfl (by decide) (by decide)⟩

/-! ## Reference accounting -/

theorem indicatorRefs_congr (s t : State) (o : PyObject) (h : t.pyErr = s.pyErr) :
    indicatorRefs t o = indicatorRefs s o := by
  simp [indicatorRefs, h]

theorem ownedRefs_Py_INCREF (s : State) (p o : PyObject) :
    ownedRefs (Py_INCREF s p) o = ownedRefs s o + ind (some p) o := by
  have hi : indicatorRefs (Py_INCREF s p) o = indicatorRefs s o :=
    indicatorRefs_congr _ _ _ (by simp)
  unfold ownedRefs
  rw [hi]
  by_cases h : o = p
  · subst h; simp [Py_INCREF, ind]; omega
  · have h2 : ¬ p = o := fun e => h e.symm
    simp [Py_INCREF, ind, h, h2]

theorem ownedRefs_Py_DECREF (s : State) (p o : PyObject) :
    ownedRefs (Py_DECREF s p) o = ownedRefs s o - ind (some p) o := by
  have hi : indicatorRefs (Py_DECREF s p) o = indicatorRefs s o :=
    indicatorRefs_congr _ _ _ (by simp)
  unfold ownedRefs
  rw [hi]
  by_cases h : o = p
  · subst h; simp [Py_DECREF, ind]; omega
  · have h2 : ¬ p = o := fun e => h e.symm
    simp [Py_DECREF, ind, h, h2]

theorem ind_none (o : PyObject) : ind none o = 0 := by simp [ind]

theorem ownedRefs_Py_XDECREF (s : State) (x : Option PyObject) (o : PyObject) :
    ownedRefs (Py_XDECREF s x) o = ownedRefs s o - ind x o := by
  cases x with
  | none => simp [Py_XDECREF, ind_none]
  | some p => simpa [Py_XDECREF] using ownedRefs_Py_DECREF s p o

theorem ownedRefs_Py_XINCREF (s : State) (x : Option PyObject) (o : PyObject) :
    ownedRefs (Py_XINCREF s x) o = ownedRefs s o + ind x o := by
  cases x with
  | none => simp [Py_XINCREF, ind_none]
  | some p => simpa [Py_XINCREF] using ownedRefs_Py_INCREF s p o

/-- Taking the error out of the indicator hands its references to the caller. -/
theorem ownedRefs_fetch (s : State) (o : PyObject) :
    ownedRefs { s with pyErr := none } o = ownedRefs s o + indicatorRefs s o := by
  simp [ownedRefs, indicatorRefs]

theorem ownedRefs_PyErr_Clear (s : State) (o : PyObject) :
    ownedRefs (PyErr_Clear s) o = ownedRefs s o := by
  unfold PyErr_Clear
  cases h : s.pyErr with
  | none => rfl
  | some e =>
    simp only [ownedRefs_Py_XDECREF, ownedRefs_fetch]
    simp only [indicatorRefs, h]
    omega

theorem ownedRefs_PyErr_Set (s : State) (e : PyErrState) (o : PyObject) :
    ownedRefs (PyErr_Set s e) o = ownedRefs s o := by
  have h1 := ownedRefs_PyErr_Clear s o
  have h2 : ownedRefs
      (Py_XINCREF (Py_XINCREF (Py_XINCREF (PyErr_Clear s) e.ptype) e.pvalue) e.ptraceback) o
      = ownedRefs s o + ind e.ptype o + ind e.pvalue o + ind e.ptraceback o := by
    simp only [ownedRefs_Py_XINCREF, h1]
  have h3 : (Py_XINCREF (Py_XINCREF (Py_XINCREF (PyErr_Clear s) e.ptype) e.pvalue)
      e.ptraceback).pyErr = none := by simp
  simp only [ownedRefs, indicatorRefs, h3] at h2
  simp only [PyErr_Set, ownedRefs, indicatorRefs]
  omega

theorem ownedRefs_congr (s t : State) (o : PyObject) (h1 : t.ob_refcnt = s.ob_refcnt)
    (h2 : t.pyErr = s.pyErr) : ownedRefs t o = ownedRefs s o := by
  simp [ownedRefs, indicatorRefs, h1, h2]

@[simp] theorem ownedRefs_emit (s : State) (ev : Event) (o : PyObject) :
    ownedRefs (emit s ev) o = ownedRefs s o :=
  ownedRefs_congr _ _ _ (by simp) (by simp)

@[simp] theorem ownedRefs_ThrowNew (s : State) (cls : String) (m : Option String)
    (o : PyObject) : ownedRefs (ThrowNew s cls m) o = ownedRefs s o :=
  ownedRefs_congr _ _ _ (by simp) (by simp)

@[simp] theorem ownedRefs_jniThrow (s : State) (cls : String) (o : PyObject) :
    ownedRefs (jniThrow s cls) o = ownedRefs s o :=
  ownedRefs_congr _ _ _ (by simp) (by simp)

@[simp] theorem ownedRefs_JPy_BEGIN_GIL_STATE (s : State) (o : PyObject) :
    ownedRefs (JPy_BEGIN_GIL_STATE s) o = ownedRefs s o :=
  ownedRefs_congr _ _ _ (by simp) (by simp)

theorem ownedRefs_ifNonNull_PyObject_Str (w : World) (x : Option PyObject) (s : State)
    (o : PyObject) :
    ownedRefs (ifNonNull x (PyObject_Str w) s).2 o
      = ownedRefs s o + ind (x.bind fun a => (w.str a).toOption) o := by
  cases x with
  | none => simp [ifNonNull, ind_none]
  | some a =>
    simp only [ifNonNull, PyObject_Str, Option.some_bind]
    cases w.str a with
    | ok r => simp [Except.toOption, ownedRefs_Py_INCREF]
    | error e => simp [Except.toOption, ownedRefs_PyErr_Set, ind_none]

theorem ownedRefs_ifNonNull_PyUnicode_AsEncodedString (w : World) (x : Option PyObject)
    (s : State) (o : PyObject) :
    ownedRefs (ifNonNull x (PyUnicode_AsEncodedString w) s).2 o
      = ownedRefs s o + ind (x.bind fun a => (w.encodeUtf8 a).toOption) o := by
  cases x with
  | none => simp [ifNonNull, ind_none]
  | some a =>
    simp only [ifNonNull, PyUnicode_AsEncodedString, Option.some_bind]
    cases w.encodeUtf8 a with
    | ok r => simp [Except.toOption, ownedRefs_Py_INCREF]
    | error e => simp [Except.toOption, ownedRefs_PyErr_Set, ind_none]

theorem ownedRefs_ifNonNull_PyBytes_AsString (w : World) (x : Option PyObject) (s : State)
    (o : PyObject) :
    ownedRefs (ifNonNull x (PyBytes_AsString w) s).2 o = ownedRefs s o := by
  cases x with
  | none => simp [ifNonNull]
  | some a =>
    simp only [ifNonNull, PyBytes_AsString]
    cases w.bytesAsString a with
    | ok r => simp
    | error e => simp [ownedRefs_PyErr_Set]

/-- Translating the guest error is neutral for every object: the references taken out of the
indicator and the texts made on the way are all released. -/
theorem ownedRefs_PyLib_HandlePythonException (w : World) (s : State) (o : PyObject) :
    ownedRefs (PyLib_HandlePythonException w s) o = ownedRefs s o := by
  unfold PyLib_HandlePythonException
  cases h : s.pyErr with
  | none => rfl
  | some e =>
    simp only [ownedRefs_PyErr_Clear, ownedRefs_Py_XDECREF]
    split_ifs <;>
    · simp only [ownedRefs_ThrowNew, ownedRefs_ifNonNull_PyBytes_AsString,
        ownedRefs_ifNonNull_PyUnicode_AsEncodedString, ownedRefs_ifNonNull_PyObject_Str,
        ifNonNull_PyObject_Str, ifNonNull_PyUnicode_AsEncodedString, ownedRefs_fetch]
      simp only [indicatorRefs, h]
      omega

theorem ownedRefs_PyObject_GetAttrString (w : World) (p : PyObject) (name : String)
    (s : State) (o : PyObject) :
    ownedRefs (PyObject_GetAttrString w p name s).2 o
      = ownedRefs s o + ind (PyObject_GetAttrString w p name s).1 o := by
  unfold PyObject_GetAttrString
  cases w.getAttr p name with
  | ok r => simp [ownedRefs_Py_INCREF]
  | error e => simp [ownedRefs_PyErr_Set, ind_none]

theorem ownedRefs_JPy_FromJObjectWithType (w : World) (i : Nat) (jArg : jobject)
    (ty : Option JType) (s : State) (o : PyObject) :
    ownedRefs (JPy_FromJObjectWithType w i jArg ty s).2 o
      = ownedRefs s o + ind (JPy_FromJObjectWithType w i jArg ty s).1 o := by
  unfold JPy_FromJObjectWithType
  cases w.fromJObject jArg ty with
  | ok r => simp [ownedRefs_Py_INCREF]
  | error e => simp [ownedRefs_PyErr_Set, ind_none]

theorem ownedRefs_PyObject_CallObject (w : World) (c : PyObject) (args : List PyObject)
    (s : State) (o : PyObject) :
    ownedRefs (PyObject_CallObject w c args s).2 o
      = ownedRefs s o + ind (PyObject_CallObject w c args s).1 o := by
  unfold PyObject_CallObject
  cases w.call c args with
  | ok r => simp [ownedRefs_Py_INCREF]
  | error e => simp [ownedRefs_PyErr_Set, ind_none]

theorem ownedRefs_JType_GetType (w : World) (i : Nat) (cls : JRef) (s : State)
    (o : PyObject) : ownedRefs (JType_GetType w i cls s).2 o = ownedRefs s o := by
  unfold JType_GetType
  cases w.getType cls with
  | ok r => simp
  | error e => simp [ownedRefs_PyErr_Set]

theorem ownedRefs_GetObjectArrayElement (arr : List jobject) (i : Nat) (s : State)
    (o : PyObject) : ownedRefs (GetObjectArrayElement arr i s).2 o = ownedRefs s o := by
  unfold GetObjectArrayElement
  cases arr[i]? <;> simp

theorem ownedRefs_PyTuple_New (w : World) (size : Int) (s : State) (o : PyObject) :
    ownedRefs (PyTuple_New w size s).2 o = ownedRefs s o := by
  unfold PyTuple_New
  split_ifs <;> simp [ownedRefs_PyErr_Set]

/-- One pass through the body of the argument loop acquires exactly the reference it
returns in `pyArg`. -/
theorem ownedRefs_convertArg (w : World) (jArgs : List jobject)
    (jParamClasses : Option (List jclass)) (i : Nat) (s : State) (o : PyObject) :
    ownedRefs (convertArg w jArgs jParamClasses i s).2 o
      = ownedRefs s o +
        (match (convertArg w jArgs jParamClasses i s).1 with
         | some pyArg => ind pyArg o
         | none => 0) := by
  unfold convertArg
  have e1 := ownedRefs_GetObjectArrayElement jArgs i s o
  cases h1 : GetObjectArrayElement jArgs i s with
  | mk jArg s1 =>
    rw [h1] at e1
    simp only at e1 ⊢
    have e2 : ∀ r : jclass × State,
        (match jParamClasses with
          | some classes => GetObjectArrayElement classes i s1
          | none => (none, s1)) = r → ownedRefs r.2 o = ownedRefs s o := by
      intro r hr
      cases jParamClasses with
      | none => simp only at hr; rw [← hr]; exact e1
      | some classes =>
        simp only at hr; rw [← hr, ownedRefs_GetObjectArrayElement]; exact e1
    cases h2 : (match jParamClasses with
          | some classes => GetObjectArrayElement classes i s1
          | none => (none, s1)) with
    | mk jParamClass s2 =>
      have e2' := e2 _ h2
      simp only at e2' ⊢
      cases jParamClass with
      | none =>
        simp only
        rw [ownedRefs_JPy_FromJObjectWithType, e2']
      | some cls =>
        simp only
        have e3 := ownedRefs_JType_GetType w i cls s2 o
        cases h3 : JType_GetType w i cls s2 with
        | mk ty s3 =>
          rw [h3] at e3
          simp only at e3
          cases ty with
          | none =>
            simp only
            rw [ownedRefs_PyLib_HandlePythonException, e3, e2']
            simp
          | some paramType =>
            simp only
            rw [ownedRefs_JPy_FromJObjectWithType, e3, e2']

theorem tupleRefs_set (items : List (Option PyObject)) (i : Nat) (a o : PyObject)
    (hi : i < items.length) (hnull : items[i]? = some none) :
    tupleRefs (items.set i (some a)) o = tupleRefs items o + ind (some a) o := by
  unfold tupleRefs ind
  rw [List.count_set _ _ _ _ hi]
  have h0 : items[i] = none := by
    rw [List.getElem?_eq_getElem hi] at hnull
    exact Option.some.inj hnull
  rw [h0]
  by_cases h : a = o <;> simp [h]

/-- The argument loop keeps the balance between the references it acquires and the
references stored in the slots of the tuple. -/
theorem ownedRefs_argLoop (w : World) (jArgs : List jobject)
    (jParamClasses : Option (List jclass)) (o : PyObject) :
    ∀ (n i : Nat) (items : List (Option PyObject)) (s : State),
      i + n ≤ items.length →
      (∀ j, i ≤ j → j < items.length → items[j]? = some none) →
      ownedRefs (argLoop w jArgs jParamClasses n i items s).2.2 o
          - tupleRefs (argLoop w jArgs jParamClasses n i items s).2.1 o
        = ownedRefs s o - tupleRefs items o := by
  intro n
  induction n with
  | zero => intro i items s _ _; simp [argLoop]
  | succ n ih =>
    intro i items s hlen hnull
    have hc := ownedRefs_convertArg w jArgs jParamClasses i s o
    unfold argLoop
    cases h : convertArg w jArgs jParamClasses i s with
    | mk r s4 =>
      rw [h] at hc
      simp only at hc
      cases r with
      | none => simp only; rw [hc]; simp
      | some pyArg =>
        cases pyArg with
        | none =>
          simp only at hc ⊢
          rw [ownedRefs_PyLib_HandlePythonException, hc, ind_none]; simp
        | some a =>
          simp only at hc ⊢
          have hi : i < items.length := by omega
          rw [ih (i + 1) (items.set i (some a)) s4 (by simp; omega) (by
            intro j hj hjl
            rw [List.getElem?_set]
            have : ¬ i = j := by omega
            simp only [this, if_false]
            exact hnull j (by omega) (by simpa using hjl))]
          rw [tupleRefs_set items i a o hi (hnull i (le_refl _) hi), hc]
          omega

theorem ownedRefs_foldl_Py_XDECREF (o : PyObject) :
    ∀ (items : List (Option PyObject)) (s : State),
      ownedRefs (items.foldl Py_XDECREF s) o = ownedRefs s o - tupleRefs items o := by
  intro items
  induction items with
  | nil => intro s; simp [tupleRefs]
  | cons x rest ih =>
    intro s
    rw [List.foldl_cons, ih, ownedRefs_Py_XDECREF]
    unfold tupleRefs ind
    rw [List.count_cons]
    by_cases h : x = some o <;> simp [h]; omega

theorem tupleRefs_replicate (n : Nat) (o : PyObject) :
    tupleRefs (List.replicate n none) o = 0 := by
  simp [tupleRefs, List.count_replicate]

theorem ownedRefs_Py_XDECREF_tuple (s : State) (pyArgs : Option (List (Option PyObject)))
    (o : PyObject) :
    ownedRefs (Py_XDECREF_tuple s pyArgs) o
      = ownedRefs s o - (match pyArgs with
                         | some items => tupleRefs items o
                         | none => 0) := by
  cases pyArgs with
  | none => simp [Py_XDECREF_tuple]
  | some items => simp [Py_XDECREF_tuple, ownedRefs_foldl_Py_XDECREF]

/-- The balance of the argument loop when it starts on the tuple `PyTuple_New` returns. -/
theorem ownedRefs_argLoop_fresh (w : World) (jArgs : List jobject)
    (jParamClasses : Option (List jclass)) (o : PyObject) (argCount : Int) (s : State) :
    ownedRefs
        (argLoop w jArgs jParamClasses argCount.toNat 0 ((PyTuple_New w argCount s).1.getD [])
          (PyTuple_New w argCount s).2).2.2 o
      - (match (PyTuple_New w argCount s).1 with
         | some _ =>
           tupleRefs (argLoop w jArgs jParamClasses argCount.toNat 0
             ((PyTuple_New w argCount s).1.getD []) (PyTuple_New w argCount s).2).2.1 o
         | none => 0)
      = ownedRefs s o := by
  unfold PyTuple_New
  by_cases h : argCount < 0
  · have h0 : argCount.toNat = 0 := by omega
    simp [h, h0, argLoop, ownedRefs_PyErr_Set]
  · simp only [h, if_false, Option.getD_some]
    rw [ownedRefs_argLoop w jArgs jParamClasses o argCount.toNat 0 _ s (by simp) (by
      intro j _ hj
      simp only [List.length_replicate] at hj
      simp [List.getElem?_replicate, hj])]
    rw [tupleRefs_replicate]; simp

/-- The dispatcher is neutral for every object, apart from the two references that travel
to the caller with the returned object. -/
theorem ownedRefs_PyLib_CallAndReturnObject (w : World) (s : State) (pyObject : PyObject)
    (isMethodCall : Bool) (jName : String) (argCount : Int) (jArgs : List jobject)
    (jParamClasses : Option (List jclass)) (o : PyObject) :
    ownedRefs
        (PyLib_CallAndReturnObject w s pyObject isMethodCall jName argCount jArgs
          jParamClasses).2 o
      = ownedRefs s o
        + 2 * ind (PyLib_CallAndReturnObject w s pyObject isMethodCall jName argCount jArgs
            jParamClasses).1 o := by
  unfold PyLib_CallAndReturnObject
  have eA := ownedRefs_PyObject_GetAttrString w pyObject jName s o
  cases hA : PyObject_GetAttrString w pyObject jName s with
  | mk c s1 =>
    rw [hA] at eA
    cases c with
    | none =>
      simp only at eA ⊢
      rw [ownedRefs_PyLib_HandlePythonException, eA, ind_none]
      simp
    | some c =>
      simp only at eA ⊢
      by_cases hcall : w.isCallable c = true
      · simp only [hcall, Bool.not_true, Bool.false_eq_true, if_false]
        have eL := ownedRefs_argLoop_fresh w jArgs jParamClasses o argCount s1
        cases hT : PyTuple_New w argCount s1 with
        | mk pyArgs s2 =>
          rw [hT] at eL
          simp only at eL ⊢
          cases hL : argLoop w jArgs jParamClasses argCount.toNat 0 (pyArgs.getD []) s2 with
          | mk b rest =>
            obtain ⟨items, s3⟩ := rest
            rw [hL] at eL
            simp only at eL
            cases b with
            | false =>
              simp only
              rw [ownedRefs_Py_XDECREF_tuple, ownedRefs_Py_XDECREF, ind_none]
              cases pyArgs <;> simp only [Option.map] at eL ⊢ <;> omega
            | true =>
              simp only
              have eC := ownedRefs_PyObject_CallObject w c
                (if argCount > 0 then items.reduceOption else []) s3 o
              cases hC : PyObject_CallObject w c
                  (if argCount > 0 then items.reduceOption else []) s3 with
              | mk ret s4 =>
                rw [hC] at eC
                cases ret with
                | none =>
                  simp only at eC ⊢
                  rw [ownedRefs_Py_XDECREF_tuple, ownedRefs_Py_XDECREF,
                    ownedRefs_PyLib_HandlePythonException, eC, ind_none]
                  cases pyArgs <;> simp only [Option.map] at eL ⊢ <;> omega
                | some r =>
                  simp only at eC ⊢
                  rw [ownedRefs_Py_XDECREF_tuple, ownedRefs_Py_XDECREF, ownedRefs_Py_INCREF, eC]
                  cases pyArgs <;> simp only [Option.map] at eL ⊢ <;> omega
      · simp only [hcall, Bool.not_false, if_true]
        rw [ownedRefs_Py_XDECREF_tuple, ownedRefs_Py_XDECREF,
          ownedRefs_PyLib_HandlePythonException, eA, ind_none]
        simp

/-! ## Argument marshalling -/

@[simp] theorem Py_XDECREF_tuple_frame (s : State) (pyArgs : Option (List (Option PyObject))) :
    (Py_XDECREF_tuple s pyArgs).pyErr = s.pyErr ∧
    (Py_XDECREF_tuple s pyArgs).jException = s.jException ∧
    (Py_XDECREF_tuple s pyArgs).trace = s.trace := by
  cases pyArgs with
  | none => simp [Py_XDECREF_tuple]
  | some items =>
    simp only [Py_XDECREF_tuple]
    induction items generalizing s with
    | nil => simp
    | cons x rest ih =>
      simp only [List.foldl_cons]
      have := ih (Py_XDECREF s x)
      simpa using this

/-- An argument that marshals: the loop body yields the converted value, sets no guest
error and performs one conversion, that of argument `i`, and no call. -/
theorem convertArg_ok (w : World) (jArgs : List jobject) (jParamClasses : Option (List jclass))
    (i : Nat) (s : State) (a : PyObject)
    (hm : marshalOf w jArgs jParamClasses i = .ok a) :
    ∃ s1 evs, convertArg w jArgs jParamClasses i s = (some (some a), s1) ∧
      s1.pyErr = s.pyErr ∧ s1.trace = s.trace ++ evs ∧
      evs.filterMap Event.conversionIndex = [i] ∧ ∀ ev ∈ evs, ev.isCall = false := by
  unfold marshalOf jArgAt paramClassAt at hm
  unfold convertArg GetObjectArrayElement
  cases jParamClasses with
  | none =>
    simp only at hm ⊢
    cases hj : jArgs[i]? <;> simp only [hj, Option.getD] at hm ⊢ <;>
      simp [JPy_FromJObjectWithType, hm, Event.conversionIndex, Event.isCall]
  | some classes =>
    simp only at hm ⊢
    cases hc : classes[i]? with
    | none =>
      simp only [hc, Option.getD] at hm ⊢
      cases hj : jArgs[i]? <;> simp only [hj, Option.getD] at hm ⊢ <;>
        simp [JPy_FromJObjectWithType, hm, Event.conversionIndex, Event.isCall]
    | some cls =>
      cases cls with
      | none =>
        simp only [hc, Option.getD] at hm ⊢
        cases hj : jArgs[i]? <;> simp only [hj, Option.getD] at hm ⊢ <;>
          simp [JPy_FromJObjectWithType, hm, Event.conversionIndex, Event.isCall]
      | some c =>
        simp only [hc, Option.getD] at hm ⊢
        cases hg : w.getType c with
        | error e => simp [hg] at hm
        | ok ty =>
          simp only [hg] at hm
          cases hj : jArgs[i]? <;> simp only [hj, Option.getD] at hm ⊢ <;>
            simp [JType_GetType, hg, JPy_FromJObjectWithType, hm, Event.conversionIndex,
              Event.isCall]

/-- An argument that does not marshal: either its conversion fails, and the loop body
yields `NULL` with the error pending in the guest after one conversion, or its type lookup
fails, and the loop body has translated the error without converting. -/
theorem convertArg_fail (w : World) (jArgs : List jobject)
    (jParamClasses : Option (List jclass)) (i : Nat) (s : State) (e : PyErrState)
    (hm : marshalOf w jArgs jParamClasses i = .error e) :
    ∃ evs, (convertArg w jArgs jParamClasses i s).2.trace = s.trace ++ evs ∧
      (∀ ev ∈ evs, ev.isCall = false) ∧
      (((convertArg w jArgs jParamClasses i s).1 = some none ∧
          (convertArg w jArgs jParamClasses i s).2.pyErr = some e ∧
          typeLookupOk w jParamClasses i = true ∧
          evs.filterMap Event.conversionIndex = [i]) ∨
       ((convertArg w jArgs jParamClasses i s).1 = none ∧
          (convertArg w jArgs jParamClasses i s).2.jException = some (translated w e) ∧
          typeLookupOk w jParamClasses i = false ∧
          evs.filterMap Event.conversionIndex = [])) := by
  unfold marshalOf jArgAt paramClassAt at hm
  unfold typeLookupOk paramClassAt
  unfold convertArg GetObjectArrayElement
  cases jParamClasses with
  | none =>
    simp only at hm ⊢
    cases hj : jArgs[i]? <;> simp only [hj, Option.getD] at hm ⊢ <;>
      simp [JPy_FromJObjectWithType, hm, Event.conversionIndex, Event.isCall]
  | some classes =>
    simp only at hm ⊢
    cases hc : classes[i]? with
    | none =>
      simp only [hc, Option.getD] at hm ⊢
      cases hj : jArgs[i]? <;> simp only [hj, Option.getD] at hm ⊢ <;>
        simp [JPy_FromJObjectWithType, hm, Event.conversionIndex, Event.isCall]
    | some cls =>
      cases cls with
      | none =>
        simp only [hc, Option.getD] at hm ⊢
        cases hj : jArgs[i]? <;> simp only [hj, Option.getD] at hm ⊢ <;>
          simp [JPy_FromJObjectWithType, hm, Event.conversionIndex, Event.isCall]
      | some c =>
        simp only [hc, Option.getD] at hm ⊢
        cases hg : w.getType c with
        | error e1 =>
          simp only [hg] at hm
          cases hm
          cases hj : jArgs[i]? <;>
            simp [JType_GetType, hg, Except.toBool, Event.conversionIndex, Event.isCall,
              PyLib_HandlePythonException_frame]
        | ok ty =>
          simp only [hg] at hm
          cases hj : jArgs[i]? <;> simp only [hj, Option.getD] at hm ⊢ <;>
            simp [JType_GetType, hg, JPy_FromJObjectWithType, hm, Except.toBool,
              Event.conversionIndex, Event.isCall]

/-- An argument that does not marshal: the loop leaves through `goto error` with the
translation of the error pending on the host, after at most one conversion, that of
argument `i` (none when the type lookup already failed), and no call. -/
theorem argLoop_step_fail (w : World) (jArgs : List jobject)
    (jParamClasses : Option (List jclass)) (n i : Nat) (items : List (Option PyObject))
    (s : State) (e : PyErrState)
    (hm : marshalOf w jArgs jParamClasses i = .error e) :
    ∃ s1 evs, argLoop w jArgs jParamClasses (n + 1) i items s = (false, items, s1) ∧
      s1.jException = some (translated w e) ∧ s1.trace = s.trace ++ evs ∧
      evs.filterMap Event.conversionIndex
        = (if typeLookupOk w jParamClasses i then [i] else []) ∧
      ∀ ev ∈ evs, ev.isCall = false := by
  obtain ⟨evs, htr, hcall, hcase⟩ := convertArg_fail w jArgs jParamClasses i s e hm
  unfold argLoop
  cases hc : convertArg w jArgs jParamClasses i s with
  | mk r s1 =>
  rw [hc] at htr hcase
  simp only at htr hcase ⊢
  rcases hcase with ⟨hr, herr, hty, hidx⟩ | ⟨hr, hj, hty, hidx⟩
  · subst hr
    have hH := PyLib_HandlePythonException_frame w s1
    rw [herr] at hH
    simp only at hH
    refine ⟨PyLib_HandlePythonException w s1,
      evs ++ [Event.ThrowNew (translated w e).cls (translated w e).message], rfl,
      hH.2.2.2.2.2.2.1, ?_, ?_, ?_⟩
    · rw [hH.2.2.2.2.2.2.2, htr, List.append_assoc]
    · rw [List.filterMap_append, hidx, hty]
      simp [Event.conversionIndex]
    · intro ev hev
      rcases List.mem_append.1 hev with h | h
      · exact hcall ev h
      · simp only [List.mem_singleton] at h
        subst h; rfl
  · subst hr
    exact ⟨s1, evs, rfl, hj, htr, by rw [hidx, hty]; simp, hcall⟩

/-- The argument loop stops at the first argument that does not marshal: it has converted
the arguments before that one, in order, and translated the error. -/
theorem argLoop_fail_fast (w : World) (jArgs : List jobject)
    (jParamClasses : Option (List jclass)) (k : Nat) (e : PyErrState)
    (hfirst : ∀ i, i < k → (marshalOf w jArgs jParamClasses i).toBool = true)
    (hfail : marshalOf w jArgs jParamClasses k = .error e) :
    ∀ (n i : Nat) (items : List (Option PyObject)) (s : State), i ≤ k → k < i + n →
      ∃ items1 s1 evs, argLoop w jArgs jParamClasses n i items s = (false, items1, s1) ∧
        s1.jException = some (translated w e) ∧ s1.trace = s.trace ++ evs ∧
        evs.filterMap Event.conversionIndex
          = List.range' i (k - i) ++ (if typeLookupOk w jParamClasses k then [k] else []) ∧
        ∀ ev ∈ evs, ev.isCall = false := by
  intro n
  induction n with
  | zero => intro i items s h1 h2; omega
  | succ n ih =>
    intro i items s h1 h2
    by_cases hik : i = k
    · subst hik
      obtain ⟨s1, evs, hl, hj, htr, hidx, hcall⟩ :=
        argLoop_step_fail w jArgs jParamClasses n i items s e hfail
      exact ⟨items, s1, evs, hl, hj, htr, by simpa using hidx, hcall⟩
    · have hlt : i < k := by omega
      have hok := hfirst i hlt
      cases hco : marshalOf w jArgs jParamClasses i with
      | error e1 => simp [hco, Except.toBool] at hok
      | ok a =>
        obtain ⟨s1, evs, hc, _, htr, hidx, hcall⟩ :=
          convertArg_ok w jArgs jParamClasses i s a hco
        obtain ⟨items2, s2, evs2, hl, hj, htr2, hidx2, hcall2⟩ :=
          ih (i + 1) (items.set i (some a)) s1 (by omega) (by omega)
        refine ⟨items2, s2, evs ++ evs2, ?_, hj, ?_, ?_, ?_⟩
        · unfold argLoop
          rw [hc]; exact hl
        · rw [htr2, htr, List.append_assoc]
        · rw [List.filterMap_append, hidx, hidx2]
          have : k - i = (k - (i + 1)) + 1 := by omega
          rw [this, List.range'_succ]
          rfl
        · intro ev hev
          rcases List.mem_append.1 hev with h | h
          · exact hcall ev h
          · exact hcall2 ev h

/-- C6. Fail-fast argument marshalling: when the attribute resolves to a callable and
argument `k` is the first that does not marshal from host to guest, then
`PyLib_CallAndReturnObject` converts the arguments `0, 1, ..., k` in this order and no other
(the conversion of `k` itself is left out when its type lookup already failed), never
invokes the callable, returns `NULL`, and leaves the translation of the marshalling error
pending as a Java exception. -/
theorem PyLib_CallAndReturnObject_fail_fast (w : World) (s : State) (pyObject : PyObject)
    (isMethodCall : Bool) (jName : String) (argCount : Int) (jArgs : List jobject)
    (jParamClasses : Option (List jclass)) (pyCallable : PyObject) (k : Nat) (e : PyErrState)
    (hattr : w.getAttr pyObject jName = .ok pyCallable)
    (hcallable : w.isCallable pyCallable = true)
    (hk : (k : Int) < argCount)
    (hfirst : ∀ i, i < k → (marshalOf w jArgs jParamClasses i).toBool = true)
    (hfail : marshalOf w jArgs jParamClasses k = .error e) :
    (PyLib_CallAndReturnObject w s pyObject isMethodCall jName argCount jArgs
        jParamClasses).1 = none ∧
    (PyLib_CallAndReturnObject w s pyObject isMethodCall jName argCount jArgs
        jParamClasses).2.jException = some (translated w e) ∧
    ∃ evs,
      (PyLib_CallAndReturnObject w s pyObject isMethodCall jName argCount jArgs
          jParamClasses).2.trace = s.trace ++ evs ∧
      evs.filterMap Event.conversionIndex
        = List.range k ++ (if typeLookupOk w jParamClasses k then [k] else []) ∧
      ∀ ev ∈ evs, ev.isCall = false := by
  have hneg : ¬ argCount < 0 := by omega
  obtain ⟨items1, s1, evs, hl, hj, htr, hidx, hcall⟩ :=
    argLoop_fail_fast w jArgs jParamClasses k e hfirst hfail argCount.toNat 0
      (List.replicate argCount.toNat none)
      (Py_INCREF (emit s (Event.GetAttrString pyObject jName)) pyCallable)
      (Nat.zero_le _) (by omega)
  unfold PyLib_CallAndReturnObject PyObject_GetAttrString PyTuple_New
  simp only [hattr, hcallable, hneg, if_false, Bool.not_true, Bool.false_eq_true,
    Option.getD_some, hl]
  refine ⟨trivial, ?_, ?_⟩
  · simpa using hj
  · refine ⟨Event.GetAttrString pyObject jName :: evs, ?_, ?_, ?_⟩
    · simp [htr]
    · rw [List.filterMap_cons]
      simp only [Event.conversionIndex]
      rw [hidx, List.range_eq_range']
      simp
    · intro ev hev
      rcases List.mem_cons.1 hev with h | h
      · subst h; rfl
      · exact hcall ev h

/-- Witness for `PyLib_CallAndReturnObject_fail_fast`: three arguments for the function `f`
of the demonstration guest, the second of which (a Java `null`) does not convert. -/
theorem PyLib_CallAndReturnObject_fail_fast_witness :
    (PyLib_CallAndReturnObject demoWorld (runningState 1) 1 false "f" 3
        [some 7, none, some 8] none).1 = none ∧
    (PyLib_CallAndReturnObject demoWorld (runningState 1) 1 false "f" 3
        [some 7, none, some 8] none).2.jException = some (translated demoWorld typeError) ∧
    ∃ evs,
      (PyLib_CallAndReturnObject demoWorld (runningState 1) 1 false "f" 3
          [some 7, none, some 8] none).2.trace = (runningState 1).trace ++ evs ∧
      evs.filterMap Event.conversionIndex
        = List.range 1 ++ (if typeLookupOk demoWorld none 1 then [1] else []) ∧
      ∀ ev ∈ evs, ev.isCall = false :=
  PyLib_CallAndReturnObject_fail_fast demoWorld (runningState 1) 1 false "f" 3
    [some 7, none, some 8] none 2 1 typeError rfl rfl (by decide) (by decide) rfl

/-- The guest error indicator after one pass through the loop body: cleared after a failed
type lookup, untouched after a successful conversion. -/
theorem convertArg_pyErr (w : World) (jArgs : List jobject)
    (jParamClasses : Option (List jclass)) (i : Nat) (s : State) :
    match (convertArg w jArgs jParamClasses i s).1 with
    | none => (convertArg w jArgs jParamClasses i s).2.pyErr = none
    | some none => True
    | some (some _) => (convertArg w jArgs jParamClasses i s).2.pyErr = s.pyErr := by
  unfold convertArg GetObjectArrayElement JType_GetType JPy_FromJObjectWithType
  cases jArgs[i]? <;> cases jParamClasses with
  | none => simp only; cases w.fromJObject _ none <;> simp
  | some classes =>
    simp only
    cases classes[i]? with
    | none => simp only; cases w.fromJObject _ none <;> simp
    | some cls =>
      cases cls with
      | none => simp only; cases w.fromJObject _ none <;> simp
      | some c =>
        simp only
        cases w.getType c with
        | error e => simp [PyLib_HandlePythonException_frame]
        | ok ty => simp only; cases w.fromJObject _ (some ty) <;> simp

/-- The guest error indicator after the argument loop: untouched when the loop completes,
cleared when it leaves through `goto error`. -/
theorem argLoop_pyErr (w : World) (jArgs : List jobject)
    (jParamClasses : Option (List jclass)) :
    ∀ (n i : Nat) (items : List (Option PyObject)) (s : State),
      (argLoop w jArgs jParamClasses n i items s).2.2.pyErr
        = if (argLoop w jArgs jParamClasses n i items s).1 then s.pyErr else none := by
  intro n
  induction n with
  | zero => intro i items s; simp [argLoop]
  | succ n ih =>
    intro i items s
    have hc := convertArg_pyErr w jArgs jParamClasses i s
    unfold argLoop
    cases h : convertArg w jArgs jParamClasses i s with
    | mk r s4 =>
      rw [h] at hc
      cases r with
      | none => simp only at hc ⊢; simp [hc]
      | some pyArg =>
        cases pyArg with
        | none => simp [PyLib_HandlePythonException_frame]
        | some a =>
          simp only at hc ⊢
          rw [ih, hc]

/-- Entered without a pending guest error and with a non-negative argument count,
`PyLib_CallAndReturnObject` returns without a pending guest error. -/
theorem PyLib_CallAndReturnObject_pyErr (w : World) (s : State) (pyObject : PyObject)
    (isMethodCall : Bool) (jName : String) (n : Nat) (jArgs : List jobject)
    (jParamClasses : Option (List jclass)) (hs : s.pyErr = none) :
    (PyLib_CallAndReturnObject w s pyObject isMethodCall jName (n : Int) jArgs
        jParamClasses).2.pyErr = none := by
  have hneg : ¬ (n : Int) < 0 := by omega
  unfold PyLib_CallAndReturnObject PyObject_GetAttrString PyTuple_New
  cases w.getAttr pyObject jName with
  | error e => simp [PyLib_HandlePythonException_frame]
  | ok c =>
    simp only [hneg, if_false, Option.getD_some]
    by_cases hcall : w.isCallable c = true
    · simp only [hcall, Bool.not_true, Bool.false_eq_true, if_false]
      have hL := argLoop_pyErr w jArgs jParamClasses (n : Int).toNat 0
        (List.replicate (n : Int).toNat none)
        (Py_INCREF (emit s (Event.GetAttrString pyObject jName)) c)
      cases hl : argLoop w jArgs jParamClasses (n : Int).toNat 0
          (List.replicate (n : Int).toNat none)
          (Py_INCREF (emit s (Event.GetAttrString pyObject jName)) c) with
      | mk b rest =>
        obtain ⟨items, s3⟩ := rest
        rw [hl] at hL
        cases b with
        | false => simpa using hL
        | true =>
          simp only [if_true] at hL ⊢
          unfold PyObject_CallObject
          cases w.call c (if (n : Int) > 0 then items.reduceOption else []) with
          | error e => simp [PyLib_HandlePythonException_frame]
          | ok r => simpa [hs] using hL
    · simp [hcall, PyLib_HandlePythonException_frame]

/-- C10. On every exit path of `PyLib_CallAndReturnObject` (attribute missing, not callable,
type lookup failed, conversion failed, invocation failed, success) the references the
dispatcher acquired are released: for every guest object, the resolved callable and every
argument value among them, the reference count, not counting references held by the guest
error indicator, is after the call what it was before, apart from the two references that
travel to the caller with the returned object.  Entered with no guest error pending and a
non-negative argument count, the call returns with no guest error pending and the same holds
of the field `ob_refcnt` itself. -/
theorem PyLib_CallAndReturnObject_releases (w : World) (s : State) (pyObject : PyObject)
    (isMethodCall : Bool) (jName : String) (argCount : Int) (n : Nat) (jArgs : List jobject)
    (jParamClasses : Option (List jclass)) (o : PyObject) :
    ownedRefs
        (PyLib_CallAndReturnObject w s pyObject isMethodCall jName argCount jArgs
          jParamClasses).2 o
      = ownedRefs s o
        + 2 * ind (PyLib_CallAndReturnObject w s pyObject isMethodCall jName argCount jArgs
            jParamClasses).1 o ∧
    (PyLib_CallAndReturnObject w { s with pyErr := none } pyObject isMethodCall jName (n : Int)
        jArgs jParamClasses).2.pyErr = none ∧
    (PyLib_CallAndReturnObject w { s with pyErr := none } pyObject isMethodCall jName (n : Int)
        jArgs jParamClasses).2.ob_refcnt o
      = s.ob_refcnt o
        + 2 * ind (PyLib_CallAndReturnObject w { s with pyErr := none } pyObject isMethodCall
            jName (n : Int) jArgs jParamClasses).1 o := by
  have h1 := ownedRefs_PyLib_CallAndReturnObject w s pyObject isMethodCall jName argCount jArgs
    jParamClasses o
  have h2 := ownedRefs_PyLib_CallAndReturnObject w { s with pyErr := none } pyObject
    isMethodCall jName (n : Int) jArgs jParamClasses o
  have h3 := PyLib_CallAndReturnObject_pyErr w { s with pyErr := none } pyObject isMethodCall
    jName n jArgs jParamClasses rfl
  refine ⟨h1, h3, ?_⟩
  simp only [ownedRefs, indicatorRefs, h3] at h2
  simpa using h2

/-! ## Failures that do not reach the host -/

/-- A resolved attribute that is not callable: `PyCallable_Check` sets no guest error, so the
translation returns at once and the dispatcher hands back `NULL` with the host exception
state untouched. -/
theorem PyLib_CallAndReturnObject_not_callable (w : World) (s : State) (pyObject : PyObject)
    (isMethodCall : Bool) (jName : String) (argCount : Int) (jArgs : List jobject)
    (jParamClasses : Option (List jclass)) (c : PyObject)
    (hattr : w.getAttr pyObject jName = .ok c) (hnc : w.isCallable c = false)
    (hs : s.pyErr = none) :
    (PyLib_CallAndReturnObject w s pyObject isMethodCall jName argCount jArgs
        jParamClasses).1 = none ∧
    (PyLib_CallAndReturnObject w s pyObject isMethodCall jName argCount jArgs
        jParamClasses).2.jException = s.jException ∧
    (PyLib_CallAndReturnObject w s pyObject isMethodCall jName argCount jArgs
        jParamClasses).2.trace = s.trace ++ [Event.GetAttrString pyObject jName] := by
  unfold PyLib_CallAndReturnObject PyObject_GetAttrString
  simp [hattr, hnc, PyLib_HandlePythonException_frame, hs]

/-- C5, the code on a failing input.  The attribute `x` of object 1 exists (it is object 3)
and is not callable; no guest error and no host exception is pending on entry.  Both
`callAndReturnObject` and `callAndReturnValue` return `NULL` with no host exception
pending; the callable is not invoked. -/
theorem callAndReturn_not_callable_silent :
    (demoWorld.getAttr 1 "x").toOption = some 3 ∧ demoWorld.isCallable 3 = false ∧
    (runningState 1).jException = none ∧
    (callAndReturnObject demoWorld (runningState 1) 1 false "x" 0 [] none).1 = none ∧
    (callAndReturnObject demoWorld (runningState 1) 1 false "x" 0 [] none).2.jException
      = none ∧
    (callAndReturnValue demoWorld (runningState 1) 1 false "x" 0 [] none none).1 = none ∧
    (callAndReturnValue demoWorld (runningState 1) 1 false "x" 0 [] none none).2.jException
      = none ∧
    (∀ ev ∈ (callAndReturnObject demoWorld (runningState 1) 1 false "x" 0 [] none).2.trace,
      ev.isCall = false) := by
  decide

/-- An item that cannot be fetched: the loop leaves through `goto error` without
translating, so the guest error stays pending and the host exception state is untouched. -/
theorem arrayLoop_fetch_fails (w : World) (pyObject : PyObject) (itemClassRef : jclass)
    (n i : Nat) (arr : List jobject) (s : State) (e : PyErrState)
    (hitem : w.getItem pyObject i = .error e) :
    (arrayLoop w pyObject itemClassRef (n + 1) i arr s).1 = none ∧
    (arrayLoop w pyObject itemClassRef (n + 1) i arr s).2.jException = s.jException ∧
    (arrayLoop w pyObject itemClassRef (n + 1) i arr s).2.pyErr = some e := by
  unfold arrayLoop PySequence_GetItem
  simp [hitem]

/-- C7, the code on a failing input.  Object 6 is a guest sequence of length 2 whose item 0
converts and whose item 1 cannot be fetched; no host exception is pending on entry.
`getObjectArrayValue` returns `NULL`, no host exception is pending, and the guest error of
the failed fetch is still pending. -/
theorem getObjectArrayValue_fetch_failure_silent :
    demoWorld.isSequence 6 = true ∧ (demoWorld.seqLength 6).toOption = some 2 ∧
    (demoWorld.getItem 6 0).toOption = some 3 ∧ (demoWorld.getItem 6 1).toOption = none ∧
    (runningState 1).jException = none ∧
    (getObjectArrayValue demoWorld (runningState 1) 6 none).1 = HostRef.null ∧
    (getObjectArrayValue demoWorld (runningState 1) 6 none).2.jException = none ∧
    (getObjectArrayValue demoWorld (runningState 1) 6 none).2.pyErr = some indexError := by
  decide

/-- A guest value that is not an integer: `getIntValue` returns the error value of
`PyLong_AsLong` as its result, raises nothing and leaves the guest error pending. -/
theorem getIntValue_mismatch (w : World) (s : State) (objId : PyObject) (e : PyErrState)
    (hkind : w.asLong objId = .error e) :
    (getIntValue w s objId).1 = -1 ∧
    (getIntValue w s objId).2.jException = s.jException ∧
    (getIntValue w s objId).2.pyErr = some e := by
  unfold getIntValue PyLong_AsLong
  simp [hkind, toJint]

/-- A guest value that is not a float: `getDoubleValue` returns `-1.0`, raises nothing and
leaves the guest error pending. -/
theorem getDoubleValue_mismatch (w : World) (s : State) (objId : PyObject) (e : PyErrState)
    (hkind : w.asDouble objId = .error e) :
    (getDoubleValue w s objId).1 = minusOneDouble ∧
    (getDoubleValue w s objId).2.jException = s.jException ∧
    (getDoubleValue w s objId).2.pyErr = some e := by
  unfold getDoubleValue PyFloat_AsDouble
  simp [hkind]

/-- C8, the code on a failing input.  Object 9 is a text, neither an integer nor a float; no
host exception is pending on entry.  `getIntValue` returns -1 and `getDoubleValue` returns
-1.0 as if they had succeeded: no host exception is pending and the guest error is still
pending. -/
theorem getIntValue_getDoubleValue_mismatch_silent :
    (demoWorld.asLong 9).toOption = none ∧ (demoWorld.asDouble 9).toOption = none ∧
    (runningState 1).jException = none ∧
    (getIntValue demoWorld (runningState 1) 9).1 = -1 ∧
    (getIntValue demoWorld (runningState 1) 9).2.jException = none ∧
    (getIntValue demoWorld (runningState 1) 9).2.pyErr = some typeError ∧
    (getDoubleValue demoWorld (runningState 1) 9).1 = minusOneDouble ∧
    (getDoubleValue demoWorld (runningState 1) 9).2.jException = none ∧
    (getDoubleValue demoWorld (runningState 1) 9).2.pyErr = some typeError := by
  decide

/-- A fetched attribute whose conversion fails keeps the reference the fetch took: the
function has no `Py_DECREF` for `pyValue`. -/
theorem getAttributeValue_conversion_fails (w : World) (s : State) (objId : PyObject)
    (jName : String) (jValueClass : jclass) (v : PyObject) (e : PyErrState)
    (hattr : w.getAttr objId jName = .ok v)
    (hconv : w.asJObjectWithClass v jValueClass = .error e) :
    (getAttributeValue w s objId jName jValueClass).1 = none ∧
    ownedRefs (getAttributeValue w s objId jName jValueClass).2 v = ownedRefs s v + 1 := by
  unfold getAttributeValue PyLib_GetAttributeObject PyObject_GetAttrString
    JPy_AsJObjectWithClass
  simp [hattr, hconv, ownedRefs_PyLib_HandlePythonException, ownedRefs_PyErr_Set,
    ownedRefs_Py_INCREF, ind]

/-- C9, the code on a failing input.  The attribute `y` of object 1 is object 5, which has
no host counterpart, so the fetch succeeds and the conversion fails.  The reference count
of object 5 is 1 before `getAttributeValue` and 2 after it. -/
theorem getAttributeValue_keeps_reference :
    (demoWorld.getAttr 1 "y").toOption = some 5 ∧
    (demoWorld.asJObjectWithClass 5 none).toOption = none ∧
    (runningState 1).ob_refcnt 5 = 1 ∧
    (getAttributeValue demoWorld (runningState 1) 1 "y" none).1 = none ∧
    (getAttributeValue demoWorld (runningState 1) 1 "y" none).2.jException
      = some (translated demoWorld typeError) ∧
    (getAttributeValue demoWorld (runningState 1) 1 "y" none).2.ob_refcnt 5 = 2 := by
  decide

/-! ## The translated message -/

theorem strlen_append (a b : String) : strlen (a ++ b) = strlen a + strlen b := by
  cases a with
  | mk as =>
    cases b with
    | mk bs =>
      show String.utf8ByteSize ((String.mk as).append (String.mk bs)) = _
      simp [strlen, String.append]

/-- C15. The formatted message fits its buffer: whatever the three texts are, present or
absent, the bytes `sprintf` writes for the message, the terminating NUL included, are at
most the size passed to `PyMem_New`; an absent text is printed in no more than the 8 bytes
the size reserves for it. -/
theorem javaMessage_fits_buffer (typeChars valueChars tracebackChars : Option String) :
    strlen (fmtS none) ≤ 8 ∧
    strlen (javaMessage typeChars valueChars tracebackChars) + 1
      ≤ javaMessageSize typeChars valueChars tracebackChars := by
  have h1 : strlen "Python error: " = 14 := by decide
  have h2 : strlen ": " = 2 := by decide
  have h3 : strlen "\nTraceback: " = 12 := by decide
  have h4 : strlen "(null)" = 6 := by decide
  refine ⟨by simp [fmtS, h4], ?_⟩
  cases typeChars <;> cases valueChars <;> cases tracebackChars <;>
    simp only [javaMessage, javaMessageSize, fmtS, strlen_append, h1, h2, h3, h4] <;> omega

/-- The text of the two format strings is the message as the specification words it. -/
theorem javaMessage_eq_specMessage (T V : String) (B : Option String) :
    javaMessage (some T) (some V) B = specMessage T V B := by
  cases B <;> rfl

/-- C11, counterexample. The guest error `typeError` stringifies to the type text `Error`
and the value text `bad value`, without traceback text; on a host where `PyMem_New` finds
no memory for the buffer the message of the exception raised is `bad value`, not
`Python error: Error: bad value`. -/
theorem PyLib_HandlePythonException_message_counterexample :
    charsOf demoWorldNoMemory typeError.ptype = some "Error" ∧
    charsOf demoWorldNoMemory typeError.pvalue = some "bad value" ∧
    charsOf demoWorldNoMemory typeError.ptraceback = none ∧
    (PyLib_HandlePythonException demoWorldNoMemory
        { runningState 1 with pyErr := some typeError }).jException
      = some ⟨JPy_RuntimeException_JClass, some "bad value"⟩ ∧
    (PyLib_HandlePythonException demoWorldNoMemory
        { runningState 1 with pyErr := some typeError }).jException
      ≠ some ⟨JPy_RuntimeException_JClass, some (specMessage "Error" "bad value" none)⟩ := by
  decide

/-- C11, amended. When a guest error is pending whose type and value stringify to `T` and
`V` and whose traceback stringifies to `B` (or has no text), `PyLib_HandlePythonException`
raises exactly one Java exception; its message is `Python error: T: V`, followed by
`\nTraceback: B` when there is traceback text, provided `PyMem_New` finds memory for the
message buffer, and the value text `V` alone when it does not. -/
theorem PyLib_HandlePythonException_message (w : World) (s : State) (e : PyErrState)
    (T V : String) (B : Option String) (herr : s.pyErr = some e)
    (hT : charsOf w e.ptype = some T) (hV : charsOf w e.pvalue = some V)
    (hB : charsOf w e.ptraceback = B) :
    (PyLib_HandlePythonException w s).jException
      = some ⟨JPy_RuntimeException_JClass,
          if w.memNew (javaMessageSize (some T) (some V) B) then some (specMessage T V B)
          else some V⟩ ∧
    (PyLib_HandlePythonException w s).trace
      = s.trace ++ [Event.ThrowNew JPy_RuntimeException_JClass
          (if w.memNew (javaMessageSize (some T) (some V) B) then some (specMessage T V B)
           else some V)] := by
  have hH := PyLib_HandlePythonException_frame w s
  rw [herr] at hH
  simp only [translated, hT, hV, hB, javaMessage_eq_specMessage] at hH
  refine ⟨?_, ?_⟩
  · rw [hH.2.2.2.2.2.2.1]
  · rw [hH.2.2.2.2.2.2.2]

/-- Witness for `PyLib_HandlePythonException_message`: an error without traceback text and
an error with traceback text, on the demonstration guest. -/
theorem PyLib_HandlePythonException_message_witness :
    (PyLib_HandlePythonException demoWorld
        { runningState 1 with pyErr := some typeError }).jException
      = some ⟨JPy_RuntimeException_JClass, some "Python error: Error: bad value"⟩ ∧
    (PyLib_HandlePythonException demoWorld
        { runningState 1 with pyErr := some tracedError }).jException
      = some ⟨JPy_RuntimeException_JClass,
          some "Python error: Error: bad value\nTraceback: Error"⟩ :=
  ⟨(PyLib_HandlePythonException_message demoWorld
      { runningState 1 with pyErr := some typeError } typeError "Error" "bad value" none
      rfl (by decide) (by decide) (by decide)).1,
   (PyLib_HandlePythonException_message demoWorld
      { runningState 1 with pyErr := some tracedError } tracedError "Error" "bad value"
      (some "Error") rfl (by decide) (by decide) (by decide)).1⟩

/-- C12. Whatever the guest state, error pending or not, components absent or failing to
stringify, the guest error indicator is clear when `PyLib_HandlePythonException` returns. -/
theorem PyLib_HandlePythonException_clears (w : World) (s : State) :
    (PyLib_HandlePythonException w s).pyErr = none :=
  (PyLib_HandlePythonException_frame w s).2.2.2.2.2.1

/-! ## Diagnostics and the method flag -/

/-- A failed import of `jpy` under non-zero diagnostic flags: `PyErr_Print` clears the guest
error, so the translation that follows finds none and raises nothing. -/
theorem startPython_failed_import (w : World) (s : State) (options : List jobject)
    (e : PyErrState) (hmod : s.JPy_Module = none) (himp : w.importJpy = .error e) :
    (startPython w s options).jException
      = if s.JPy_DiagFlags = 0 then some (translated w e) else s.jException := by
  have h := (startPython_fields w s options).2.2.2.2
  rw [h, hmod, himp]

/-- C13, the code on a failing input.  The module `jpy` cannot be imported and no host
exception is pending on entry.  With the diagnostic flags at zero `startPython` leaves the
translated import error pending as a Java exception; with the flags at one, from the same
state otherwise, it returns with no exception pending. -/
theorem startPython_diag_flags_change_outcome :
    demoWorldNoJpy.importJpy.toOption = none ∧
    (stoppedState 0).jException = none ∧ (stoppedState 1).jException = none ∧
    (startPython demoWorldNoJpy (stoppedState 0) []).jException
      = some ⟨JPy_RuntimeException_JClass, some "Python error: Error: bad value"⟩ ∧
    (startPython demoWorldNoJpy (stoppedState 1) []).jException = none ∧
    (startPython demoWorldNoJpy (stoppedState 1) []).JPy_Module = none := by
  decide

/-- C14. The flag `isMethodCall` does not change dispatch: whatever its value, the helper
`PyLib_CallAndReturnObject` and the two entry points built on it return the same handle or
value and leave the same state, pending host exception and guest error included. -/
theorem isMethodCall_irrelevant (w : World) (s : State) (pyObject : PyObject)
    (b1 b2 : Bool) (jName : String) (argCount : Int) (jArgs : List jobject)
    (jParamClasses : Option (List jclass)) (jReturnClass : jclass) :
    PyLib_CallAndReturnObject w s pyObject b1 jName argCount jArgs jParamClasses
      = PyLib_CallAndReturnObject w s pyObject b2 jName argCount jArgs jParamClasses ∧
    callAndReturnObject w s pyObject b1 jName argCount jArgs jParamClasses
      = callAndReturnObject w s pyObject b2 jName argCount jArgs jParamClasses ∧
    callAndReturnValue w s pyObject b1 jName argCount jArgs jParamClasses jReturnClass
      = callAndReturnValue w s pyObject b2 jName argCount jArgs jParamClasses jReturnClass :=
  ⟨rfl, rfl, rfl⟩

end PyLib
